import Mathlib

/-!
# BitsButtonXR — shallow embedding and verification

This file embeds the core logic of the `BitsButtonXR` button-detection module
(the unified data-oriented iteration of the class: debounce filter, per-button
timing state machine, greedy chord matching with suppression and commit delay,
event emission, and the idle-hysteresis sleep check) and proves properties of
the per-tick pipeline.

Machine integers are modelled as `Nat` with explicit reduction modulo `2^32`
(for `uint32_t` fields such as `state_bits` and tick arithmetic) and modulo
`2^16` (for the `uint16_t` long-press counter).  The GPIO lines, the timer and
the clock are external collaborators: a tick receives the list of raw GPIO
readings and the current millisecond time as inputs.
-/

set_option linter.unusedVariables false

namespace BitsButtonXR

/-- Modulus of 32-bit unsigned arithmetic (`uint32_t`). -/
def U32 : Nat := 4294967296

/-- Modulus of 16-bit unsigned arithmetic (`uint16_t`). -/
def U16 : Nat := 65536

/-- `TIMER_INTERVAL_MS` of the source: period of the polling timer. -/
def TIMER_INTERVAL_MS : Nat := 10

/-- `IDLE_SLEEP_THRESHOLD` of the source: idle-hysteresis bound. -/
def IDLE_SLEEP_THRESHOLD : Nat := 10

/-- `DEBOUNCE_THRESHOLD` of the source: stable readings needed to confirm. -/
def DEBOUNCE_THRESHOLD : Nat := 2

/-- `COMBINED_COMMIT_DELAY_MS` of the source: delay for chord synchronization. -/
def COMBINED_COMMIT_DELAY_MS : Nat := 50

/-- Capacity of the result queue (`result_queue_(16)` in the constructor). -/
def QUEUE_CAPACITY : Nat := 16

/-- `ButtonEvent` enum of the source. -/
inductive ButtonEvent where
  | PRESSED
  | LONG_PRESS_START
  | LONG_PRESS_HOLD
  | RELEASED
  | CLICK_FINISH
deriving DecidableEq, Repr, Inhabited

/-- Numeric value of a `ButtonEvent` (the `uint8_t` enum encoding). -/
def eventCode : ButtonEvent → Nat
  | .PRESSED => 0
  | .LONG_PRESS_START => 1
  | .LONG_PRESS_HOLD => 2
  | .RELEASED => 3
  | .CLICK_FINISH => 4

/-- `InternalState` enum of the source. -/
inductive InternalState where
  | IDLE
  | PRESSED
  | LONG_PRESS
  | RELEASE
  | RELEASE_WINDOW
  | FINISH
deriving DecidableEq, Repr, Inhabited

/-- `ButtonConstraints` of the source (all `uint16_t` milliseconds). -/
structure ButtonConstraints where
  short_press_time_ms : Nat
  long_press_start_time_ms : Nat
  long_press_period_triger_ms : Nat
  time_window_time_ms : Nat
deriving DecidableEq, Repr, Inhabited

/-- Physical-button half of the `GenericButton::Config` union.  The GPIO
handle itself is an external collaborator; raw readings enter as tick inputs. -/
structure PhysConfig where
  active_level : Bool
  last_raw_state : Bool
  debounced_state : Bool
  is_suppressible : Bool
  pending_press_tick : Nat
deriving DecidableEq, Repr, Inhabited

/-- Combined-button (chord) half of the `GenericButton::Config` union. -/
structure CombConfig where
  mask : Nat
  suppress_single : Bool
  key_count : Nat
deriving DecidableEq, Repr, Inhabited

/-- The tagged `Config` union of `GenericButton`, as a sum type. -/
inductive BtnConfig where
  | phys (p : PhysConfig)
  | comb (c : CombConfig)
deriving DecidableEq, Repr, Inhabited

/-- `GenericButton` of the source.  The alias string is identified by
`logic_index`; the state-machine fields are shared by both variants. -/
structure GenericButton where
  current_state : InternalState
  state_bits : Nat
  state_entry_tick : Nat
  long_press_cnt : Nat
  debounce_counter : Nat
  logic_index : Nat
  cfg : BtnConfig
  constraints : ButtonConstraints
deriving DecidableEq, Repr, Inhabited

/-- Debounced state of a physical button (`cfg.phys.debounced_state`). -/
def GenericButton.debounced : GenericButton → Bool
  | { cfg := .phys p, .. } => p.debounced_state
  | _ => false

/-- Last raw reading of a physical button (`cfg.phys.last_raw_state`). -/
def GenericButton.lastRaw : GenericButton → Bool
  | { cfg := .phys p, .. } => p.last_raw_state
  | _ => false

/-- Active level of a physical button (`cfg.phys.active_level`). -/
def GenericButton.activeLevel : GenericButton → Bool
  | { cfg := .phys p, .. } => p.active_level
  | _ => false

/-- Suppressibility flag of a physical button (`cfg.phys.is_suppressible`). -/
def GenericButton.suppressible : GenericButton → Bool
  | { cfg := .phys p, .. } => p.is_suppressible
  | _ => false

/-- Pending-press timestamp of a physical button
(`cfg.phys.pending_press_tick`). -/
def GenericButton.pending : GenericButton → Nat
  | { cfg := .phys p, .. } => p.pending_press_tick
  | _ => 0

/-- Chord bitmask (`cfg.comb.mask`). -/
def GenericButton.chordMask : GenericButton → Nat
  | { cfg := .comb c, .. } => c.mask
  | _ => 0

/-- Chord suppression flag (`cfg.comb.suppress_single`). -/
def GenericButton.chordSuppress : GenericButton → Bool
  | { cfg := .comb c, .. } => c.suppress_single
  | _ => false

/-- Update the `debounced_state` field of a physical button.  This is how the
debounce stage of a tick hands its result to the state-machine stage; it lets
runs of the physical-button pipeline be driven directly by a debounced-input
schedule. -/
def setDebounced (btn : GenericButton) (d : Bool) : GenericButton :=
  match btn with
  | { cfg := .phys p, .. } => { btn with cfg := .phys { p with debounced_state := d } }
  | _ => btn

/-- Write the `pending_press_tick` field of a physical button. -/
def setPending (btn : GenericButton) (v : Nat) : GenericButton :=
  match btn with
  | { cfg := .phys p, .. } => { btn with cfg := .phys { p with pending_press_tick := v } }
  | _ => btn

/-- The record built by `EmitEvent` (`ButtonEventResult`); the alias is
identified by the button's `logic_index`. -/
structure EmittedEvent where
  logic_index : Nat
  event_type : ButtonEvent
  state_bits : Nat
  long_press_count : Nat
  system_tick : Nat
deriving DecidableEq, Repr, Inhabited

/-- Build the `ButtonEventResult` exactly as `EmitEvent` snapshots it. -/
def mkEvent (btn : GenericButton) (t : ButtonEvent) (now : Nat) : EmittedEvent :=
  ⟨btn.logic_index, t, btn.state_bits, btn.long_press_cnt, now⟩

/-- `current_tick - btn.state_entry_tick` in `uint32_t` wraparound
arithmetic. -/
def elapsedMs (current_tick entry : Nat) : Nat :=
  (current_tick + (U32 - entry % U32)) % U32

/-- Core of `RecordHistory`: left-shift-insert one bit into the `uint32_t`
history register. -/
def shiftIn (bits : Nat) (pressed : Bool) : Nat :=
  ((bits <<< 1) ||| (if pressed then 1 else 0)) % U32

/-- `RecordHistory` of the source. -/
def RecordHistory (btn : GenericButton) (pressed : Bool) : GenericButton :=
  { btn with state_bits := shiftIn btn.state_bits pressed }

/-- `UpdateGenericState` of the source: one state-machine step of a single
button (physical or chord), returning the updated button and the events
emitted during the step (in emission order). -/
def UpdateGenericState (btn : GenericButton) (is_active : Bool) (current_tick : Nat) :
    GenericButton × List EmittedEvent :=
  let elapsed_ms := elapsedMs current_tick btn.state_entry_tick
  match btn.current_state with
  | .IDLE =>
    if is_active then
      let b := RecordHistory { btn with current_state := .PRESSED,
                                        state_entry_tick := current_tick } true
      (b, [mkEvent b .PRESSED current_tick])
    else (btn, [])
  | .PRESSED =>
    if !is_active then
      ({ btn with current_state := .RELEASE, state_entry_tick := current_tick }, [])
    else if btn.constraints.long_press_start_time_ms < elapsed_ms then
      let b := RecordHistory { btn with current_state := .LONG_PRESS,
                                        state_entry_tick := current_tick,
                                        long_press_cnt := 0 } true
      (b, [mkEvent b .LONG_PRESS_START current_tick])
    else (btn, [])
  | .LONG_PRESS =>
    if !is_active then
      ({ btn with current_state := .RELEASE, state_entry_tick := current_tick }, [])
    else if btn.constraints.long_press_period_triger_ms < elapsed_ms then
      let b := RecordHistory { btn with state_entry_tick := current_tick,
                                        long_press_cnt := (btn.long_press_cnt + 1) % U16 } true
      (b, [mkEvent b .LONG_PRESS_HOLD current_tick])
    else (btn, [])
  | .RELEASE =>
    let b := RecordHistory btn false
    ({ b with current_state := .RELEASE_WINDOW, state_entry_tick := current_tick },
     [mkEvent b .RELEASED current_tick])
  | .RELEASE_WINDOW =>
    if is_active then
      ({ btn with current_state := .IDLE }, [])
    else if btn.constraints.time_window_time_ms < elapsed_ms then
      ({ btn with current_state := .FINISH }, [])
    else (btn, [])
  | .FINISH =>
    ({ btn with state_bits := 0, current_state := .IDLE },
     [mkEvent btn .CLICK_FINISH current_tick])

/-- `UpdateButtonDebounce` of the source: confirmation filter with
`DEBOUNCE_THRESHOLD` consecutive identical raw readings.  Only physical
buttons are affected. -/
def UpdateButtonDebounce (btn : GenericButton) (raw_state : Bool) : GenericButton :=
  match btn with
  | { cfg := .phys p, .. } =>
    let step :=
      if raw_state ≠ p.last_raw_state then
        ({ p with last_raw_state := raw_state }, 1)
      else if btn.debounce_counter < DEBOUNCE_THRESHOLD then
        (p, btn.debounce_counter + 1)
      else (p, btn.debounce_counter)
    let p1 := step.1
    let dc := step.2
    let p2 := if DEBOUNCE_THRESHOLD ≤ dc then { p1 with debounced_state := p1.last_raw_state }
              else p1
    { btn with cfg := .phys p2, debounce_counter := dc }
  | _ => btn

/-- One iteration of the physical-button loop of `StateTimerOnTick`
(suppression branch, commit-delay branch, then `process_button`), for the
button's current `debounced_state`, given this tick's suppression mask. -/
def physTick (sup : Nat) (btn : GenericButton) (now : Nat) :
    GenericButton × List EmittedEvent :=
  match h : btn.cfg with
  | .comb _ => (btn, [])
  | .phys p =>
    let pressed := p.debounced_state
    if sup.testBit btn.logic_index then
      let btn1 :=
        if btn.current_state ≠ .IDLE then
          { btn with current_state := .IDLE, state_bits := 0, long_press_cnt := 0 }
        else btn
      (setPending btn1 0, [])
    else
      if pressed = true ∧ btn.current_state = .IDLE then
        if p.is_suppressible then
          if p.pending_press_tick = 0 then
            UpdateGenericState (setPending btn now) false now
          else if elapsedMs now p.pending_press_tick < COMBINED_COMMIT_DELAY_MS then
            UpdateGenericState btn false now
          else
            UpdateGenericState btn true now
        else UpdateGenericState btn true now
      else
        UpdateGenericState (setPending btn 0) pressed now

/-- Run the physical-button pipeline of consecutive ticks for one unshared
button: each step installs the debounced value computed by that tick's
debounce stage and then performs the loop body `physTick`. -/
def runPhys (sup : Nat) : GenericButton → List (Bool × Nat) → GenericButton × List EmittedEvent
  | btn, [] => (btn, [])
  | btn, (d, t) :: rest =>
    let r := physTick sup (setDebounced btn d) t
    let r2 := runPhys sup r.1 rest
    (r2.1, r.2 ++ r2.2)

/-- Result of the combined-button (chord) loop of `StateTimerOnTick`.
`inputs` records, in loop order, the `effective_active` value fed to each
chord's state machine. -/
structure CombOut where
  buttons : List GenericButton
  consumed : Nat
  suppression : Nat
  active_count : Nat
  events : List EmittedEvent
  inputs : List Bool
deriving DecidableEq, Repr, Inhabited

/-- The combined-button loop of `StateTimerOnTick`: greedy matching over the
chord list (already sorted by descending `key_count` at setup), threading the
`consumed_mask`, `suppression_mask` and `active_count` accumulators. -/
def processCombined (cur now : Nat) (consumed suppression ac : Nat) :
    List GenericButton → CombOut
  | [] => ⟨[], consumed, suppression, ac, [], []⟩
  | btn :: rest =>
    let m := btn.chordMask
    let mtch := (cur &&& m) = m
    let cons := (consumed &&& m) ≠ 0
    let eff := mtch ∧ ¬cons
    let effB := decide eff
    let r := UpdateGenericState btn effB now
    let ac' := if r.1.current_state ≠ .IDLE then ac + 1 else ac
    let consumed' := if mtch then consumed ||| m else consumed
    let suppression' := if mtch ∧ btn.chordSuppress then suppression ||| m else suppression
    let out := processCombined cur now consumed' suppression' ac' rest
    ⟨r.1 :: out.buttons, out.consumed, out.suppression, out.active_count,
     r.2 ++ out.events, effB :: out.inputs⟩

/-- Result of the physical-button loop of `StateTimerOnTick`. -/
structure PhysOut where
  buttons : List GenericButton
  active_count : Nat
  events : List EmittedEvent
deriving DecidableEq, Repr, Inhabited

/-- The physical-button loop of `StateTimerOnTick`.  A suppressed button is
forced to `IDLE` by `physTick`, so counting every updated button whose state
is not `IDLE` agrees with the source, where suppressed buttons `continue`
before the count. -/
def processPhysList (sup now ac : Nat) : List GenericButton → PhysOut
  | [] => ⟨[], ac, []⟩
  | btn :: rest =>
    let r := physTick sup btn now
    let ac' := if r.1.current_state ≠ .IDLE then ac + 1 else ac
    let out := processPhysList sup now ac' rest
    ⟨r.1 :: out.buttons, out.active_count, r.2 ++ out.events⟩

/-- Debounce stage of a tick: one raw GPIO reading per physical button, the
raw state being the comparison with the active level. -/
def debounceAll : List GenericButton → List Bool → List GenericButton
  | [], _ => []
  | bs, [] => bs
  | b :: bs, r :: rs =>
    UpdateButtonDebounce b (r == b.activeLevel) :: debounceAll bs rs

/-- Build `current_mask_` from the debounced states, in loop order. -/
def buildMaskAux (acc : Nat) : List GenericButton → Nat
  | [] => acc
  | b :: rest =>
    buildMaskAux (if b.debounced then acc ||| (1 <<< b.logic_index) else acc) rest

/-- The mutable state of the `BitsButtonXR` object that the tick pipeline and
the power controller touch.  `interrupts_enabled` models whether the edge
interrupts of the physical lines are currently enabled. -/
structure ModuleState where
  physical : List GenericButton
  combined : List GenericButton
  current_mask : Nat
  idle_hysteresis : Nat
  is_polling_active : Bool
  interrupts_need_disable : Bool
  interrupts_enabled : Bool
deriving DecidableEq, Repr, Inhabited

/-- `EnterSleepMode` of the source: stop the periodic timer and re-enable the
edge interrupts of every physical line. -/
def EnterSleepMode (inst : ModuleState) : ModuleState :=
  { inst with is_polling_active := false, interrupts_enabled := true }

/-- `WakeUpFromIsr` of the source: performed by the edge callback. -/
def WakeUpFromIsr (inst : ModuleState) : ModuleState :=
  if inst.is_polling_active then inst
  else { inst with is_polling_active := true, idle_hysteresis := 0,
                   interrupts_need_disable := true }

/-- Is every state machine of the list in `IDLE`? -/
def allIdle (bs : List GenericButton) : Bool :=
  bs.all (fun b => b.current_state == .IDLE)

/-- Step 0 of `StateTimerOnTick`: disable the line interrupts on the first
tick after a wake-up. -/
def tickDisable (inst : ModuleState) : ModuleState :=
  if inst.interrupts_need_disable then
    { inst with interrupts_enabled := false, interrupts_need_disable := false }
  else inst

/-- Step 1 of `StateTimerOnTick`: debounced physical buttons of this tick. -/
def tickPhys1 (inst : ModuleState) (reads : List Bool) : List GenericButton :=
  debounceAll (tickDisable inst).physical reads

/-- Step 1 of `StateTimerOnTick`: the `current_mask_` built this tick. -/
def tickCur (inst : ModuleState) (reads : List Bool) : Nat :=
  buildMaskAux 0 (tickPhys1 inst reads)

/-- Step 2 of `StateTimerOnTick`: the combined-button loop of this tick. -/
def tickComb (inst : ModuleState) (reads : List Bool) (now : Nat) : CombOut :=
  processCombined (tickCur inst reads) now 0 0 0 (tickDisable inst).combined

/-- Step 3 of `StateTimerOnTick`: the physical-button loop of this tick. -/
def tickPhysOut (inst : ModuleState) (reads : List Bool) (now : Nat) : PhysOut :=
  processPhysList (tickComb inst reads now).suppression now
    (tickComb inst reads now).active_count (tickPhys1 inst reads)

/-- The module state after the button processing of a tick, before the sleep
check. -/
def tickPre (inst : ModuleState) (reads : List Bool) (now : Nat) : ModuleState :=
  { tickDisable inst with physical := (tickPhysOut inst reads now).buttons,
                          combined := (tickComb inst reads now).buttons,
                          current_mask := tickCur inst reads }

/-- Step 4 of `StateTimerOnTick`: the idle-hysteresis sleep check. -/
def sleepCheck (inst1 : ModuleState) (active_count : Nat) : ModuleState :=
  if inst1.current_mask = 0 ∧ active_count = 0 then
    if IDLE_SLEEP_THRESHOLD < inst1.idle_hysteresis + 1 then
      EnterSleepMode { inst1 with idle_hysteresis := inst1.idle_hysteresis + 1 }
    else { inst1 with idle_hysteresis := inst1.idle_hysteresis + 1 }
  else { inst1 with idle_hysteresis := 0 }

/-- `StateTimerOnTick` of the source: one full tick of the pipeline, taking
the raw GPIO readings (one per physical button) and the current time, and
returning the updated module state together with the events emitted this tick
(chord events first, then physical-button events, as in the source). -/
def StateTimerOnTick (inst : ModuleState) (reads : List Bool) (now : Nat) :
    ModuleState × List EmittedEvent :=
  (sleepCheck (tickPre inst reads now) (tickPhysOut inst reads now).active_count,
   (tickComb inst reads now).events ++ (tickPhysOut inst reads now).events)

/-- Run several consecutive ticks. -/
def runTicks : ModuleState → List (List Bool × Nat) → ModuleState × List EmittedEvent
  | inst, [] => (inst, [])
  | inst, (reads, now) :: rest =>
    let r := StateTimerOnTick inst reads now
    let r2 := runTicks r.1 rest
    (r2.1, r.2 ++ r2.2)

/-- `MakeEventId` of the source: pack the logical index into bits 15..8 and
the event kind into bits 7..0, masking both fields. -/
def MakeEventId (index : Nat) (t : ButtonEvent) : Nat :=
  ((index &&& 0xFF) <<< 8) ||| ((eventCode t &&& 0xFF) <<< 0)

/-- Union of the masks of the chords of the list whose mask is entirely
contained in the debounced mask `cur`.  This depends only on `cur` and the
chord configurations, not on any state-machine state. -/
def consumedOf (cur : Nat) : List GenericButton → Nat
  | [] => 0
  | b :: rest =>
    (if cur &&& b.chordMask = b.chordMask then b.chordMask else 0) ||| consumedOf cur rest

/-- The (event kind, repeat count) projection of the `LONG_PRESS_HOLD` events
emitted by a chain of hold ticks starting from repeat count `c`. -/
def holdEvCnts (c : Nat) : List Nat → List (ButtonEvent × Nat)
  | [] => []
  | _ :: t => (.LONG_PRESS_HOLD, c + 1) :: holdEvCnts (c + 1) t

/-- A chain of hold ticks: each tick is beyond the hold period of the previous
state-entry tick (which the hold transition resets). -/
def holdChainB (period : Nat) : Nat → List Nat → Bool
  | _, [] => true
  | entry, h :: t =>
    decide (entry ≤ h) && decide (period + entry < h) && decide (h < U32) &&
      holdChainB period h t

/-- Number of buttons of the list whose state machine is not in `IDLE`. -/
def countNonIdle (bs : List GenericButton) : Nat :=
  bs.countP (fun b => decide (b.current_state ≠ .IDLE))

/-- Modelled from the spec: the bounded lock-free queue (`LibXR::LockFreeQueue`)
is an external collaborator; per the interface boundary its push is
non-blocking and fails silently when the queue already holds
`QUEUE_CAPACITY` records. -/
def queuePush (q : List EmittedEvent) (e : EmittedEvent) : List EmittedEvent :=
  if q.length < QUEUE_CAPACITY then q ++ [e] else q

/-- Deliver a tick's emissions as `EmitEvent` does, one by one: push the
record into the bounded queue (dropping on full) and raise the typed
notification `MakeEventId` regardless of the push outcome.  Returns the final
queue and the notifications raised, in order. -/
def dispatchEvents (q : List EmittedEvent) : List EmittedEvent → List EmittedEvent × List Nat
  | [] => (q, [])
  | e :: es =>
    let r := dispatchEvents (queuePush q e) es
    (r.1, MakeEventId e.logic_index e.event_type :: r.2)

/-! ## Arithmetic helper lemmas -/

lemma elapsedMs_eq {c e : Nat} (h1 : e ≤ c) (h2 : c < U32) : elapsedMs c e = c - e := by
  have he : e % U32 = e := Nat.mod_eq_of_lt (lt_of_le_of_lt h1 h2)
  have heU : e ≤ U32 := le_of_lt (lt_of_le_of_lt h1 h2)
  unfold elapsedMs
  rw [he, show c + (U32 - e) = (c - e) + U32 by omega, Nat.add_mod_right]
  exact Nat.mod_eq_of_lt (by omega)

/-! ## Single-step lemmas for the physical-button loop body

Each lemma computes `physTick` on a button given by its fields, in one of the
situations the per-claim traces pass through. -/

lemma runPhys_nil (sup : Nat) (b : GenericButton) : runPhys sup b [] = (b, []) := rfl

lemma runPhys_cons (sup : Nat) (b : GenericButton) (d : Bool) (t : Nat)
    (rest : List (Bool × Nat)) :
    runPhys sup b ((d, t) :: rest)
      = ((runPhys sup (physTick sup (setDebounced b d) t).1 rest).1,
         (physTick sup (setDebounced b d) t).2
           ++ (runPhys sup (physTick sup (setDebounced b d) t).1 rest).2) := rfl

lemma runPhys_append (sup : Nat) (b : GenericButton) (l1 l2 : List (Bool × Nat)) :
    runPhys sup b (l1 ++ l2)
      = ((runPhys sup (runPhys sup b l1).1 l2).1,
         (runPhys sup b l1).2 ++ (runPhys sup (runPhys sup b l1).1 l2).2) := by
  induction l1 generalizing b with
  | nil => simp [runPhys]
  | cons s t ih =>
    cases s with
    | mk d tick => simp [runPhys, ih]

lemma step_idle_active (sup idx B e c dc t : Nat) (al lr : Bool) (cons : ButtonConstraints)
    (hsup : sup.testBit idx = false) :
    physTick sup ⟨.IDLE, B, e, c, dc, idx, .phys ⟨al, lr, true, false, 0⟩, cons⟩ t
      = (⟨.PRESSED, shiftIn B true, t, c, dc, idx, .phys ⟨al, lr, true, false, 0⟩, cons⟩,
         [⟨idx, .PRESSED, shiftIn B true, c, t⟩]) := by
  simp [physTick, setPending, UpdateGenericState, RecordHistory, mkEvent, hsup]

lemma step_idle_inactive (sup idx B e c dc t pe : Nat) (al lr su : Bool)
    (cons : ButtonConstraints) (hsup : sup.testBit idx = false) :
    physTick sup ⟨.IDLE, B, e, c, dc, idx, .phys ⟨al, lr, false, su, pe⟩, cons⟩ t
      = (⟨.IDLE, B, e, c, dc, idx, .phys ⟨al, lr, false, su, 0⟩, cons⟩, []) := by
  simp [physTick, setPending, UpdateGenericState, hsup]

lemma step_pressed_stay (sup idx B e c dc t : Nat) (al lr : Bool) (cons : ButtonConstraints)
    (hsup : sup.testBit idx = false) (h1 : e ≤ t) (h2 : t < U32)
    (hstay : t - e ≤ cons.long_press_start_time_ms) :
    physTick sup ⟨.PRESSED, B, e, c, dc, idx, .phys ⟨al, lr, true, false, 0⟩, cons⟩ t
      = (⟨.PRESSED, B, e, c, dc, idx, .phys ⟨al, lr, true, false, 0⟩, cons⟩, []) := by
  simp [physTick, setPending, UpdateGenericState, hsup, elapsedMs_eq h1 h2,
        Nat.not_lt.mpr hstay]

lemma step_pressed_release (sup idx B e c dc t pe : Nat) (al lr su : Bool)
    (cons : ButtonConstraints) (hsup : sup.testBit idx = false) :
    physTick sup ⟨.PRESSED, B, e, c, dc, idx, .phys ⟨al, lr, false, su, pe⟩, cons⟩ t
      = (⟨.RELEASE, B, t, c, dc, idx, .phys ⟨al, lr, false, su, 0⟩, cons⟩, []) := by
  simp [physTick, setPending, UpdateGenericState, hsup]

lemma step_release (sup idx B e c dc t pe : Nat) (al lr su : Bool)
    (cons : ButtonConstraints) (hsup : sup.testBit idx = false) :
    physTick sup ⟨.RELEASE, B, e, c, dc, idx, .phys ⟨al, lr, false, su, pe⟩, cons⟩ t
      = (⟨.RELEASE_WINDOW, shiftIn B false, t, c, dc, idx, .phys ⟨al, lr, false, su, 0⟩, cons⟩,
         [⟨idx, .RELEASED, shiftIn B false, c, t⟩]) := by
  simp [physTick, setPending, UpdateGenericState, RecordHistory, mkEvent, hsup]

lemma step_window_stay (sup idx B e c dc t : Nat) (al lr su : Bool)
    (cons : ButtonConstraints) (hsup : sup.testBit idx = false) (h1 : e ≤ t) (h2 : t < U32)
    (hstay : t - e ≤ cons.time_window_time_ms) :
    physTick sup ⟨.RELEASE_WINDOW, B, e, c, dc, idx, .phys ⟨al, lr, false, su, 0⟩, cons⟩ t
      = (⟨.RELEASE_WINDOW, B, e, c, dc, idx, .phys ⟨al, lr, false, su, 0⟩, cons⟩, []) := by
  simp [physTick, setPending, UpdateGenericState, hsup, elapsedMs_eq h1 h2,
        Nat.not_lt.mpr hstay]

lemma step_window_finish (sup idx B e c dc t pe : Nat) (al lr su : Bool)
    (cons : ButtonConstraints) (hsup : sup.testBit idx = false) (h1 : e ≤ t) (h2 : t < U32)
    (hfin : cons.time_window_time_ms < t - e) :
    physTick sup ⟨.RELEASE_WINDOW, B, e, c, dc, idx, .phys ⟨al, lr, false, su, pe⟩, cons⟩ t
      = (⟨.FINISH, B, e, c, dc, idx, .phys ⟨al, lr, false, su, 0⟩, cons⟩, []) := by
  simp [physTick, setPending, UpdateGenericState, hsup, elapsedMs_eq h1 h2, hfin]

lemma step_finish (sup idx B e c dc t pe : Nat) (al lr su : Bool)
    (cons : ButtonConstraints) (hsup : sup.testBit idx = false) :
    physTick sup ⟨.FINISH, B, e, c, dc, idx, .phys ⟨al, lr, false, su, pe⟩, cons⟩ t
      = (⟨.IDLE, 0, e, c, dc, idx, .phys ⟨al, lr, false, su, 0⟩, cons⟩,
         [⟨idx, .CLICK_FINISH, B, c, t⟩]) := by
  simp [physTick, setPending, UpdateGenericState, mkEvent, hsup]

/-! ## Multi-step run lemmas -/

lemma run_stay_pressed (sup idx B e c dc : Nat) (al lr : Bool) (cons : ButtonConstraints)
    (hsup : sup.testBit idx = false) (ts : List Nat)
    (hts : ∀ q ∈ ts, e ≤ q ∧ q - e ≤ cons.long_press_start_time_ms ∧ q < U32) :
    runPhys sup ⟨.PRESSED, B, e, c, dc, idx, .phys ⟨al, lr, true, false, 0⟩, cons⟩
        (ts.map (fun q => (true, q)))
      = (⟨.PRESSED, B, e, c, dc, idx, .phys ⟨al, lr, true, false, 0⟩, cons⟩, []) := by
  induction ts with
  | nil => simp [runPhys]
  | cons q t ih =>
    obtain ⟨hq1, hq2, hq3⟩ := hts q (by simp)
    have hstep := step_pressed_stay sup idx B e c dc q al lr cons hsup hq1 hq3 hq2
    have hrest := ih (fun w hw => hts w (by simp [hw]))
    simp [runPhys_cons, setDebounced, hstep, hrest]

lemma run_stay_window (sup idx B e c dc : Nat) (al lr su : Bool) (cons : ButtonConstraints)
    (hsup : sup.testBit idx = false) (ts : List Nat)
    (hts : ∀ q ∈ ts, e ≤ q ∧ q - e ≤ cons.time_window_time_ms ∧ q < U32) :
    runPhys sup ⟨.RELEASE_WINDOW, B, e, c, dc, idx, .phys ⟨al, lr, false, su, 0⟩, cons⟩
        (ts.map (fun q => (false, q)))
      = (⟨.RELEASE_WINDOW, B, e, c, dc, idx, .phys ⟨al, lr, false, su, 0⟩, cons⟩, []) := by
  induction ts with
  | nil => simp [runPhys]
  | cons q t ih =>
    obtain ⟨hq1, hq2, hq3⟩ := hts q (by simp)
    have hstep := step_window_stay sup idx B e c dc q al lr su cons hsup hq1 hq3 hq2
    have hrest := ih (fun w hw => hts w (by simp [hw]))
    simp [runPhys_cons, setDebounced, hstep, hrest]

/-- A complete short-click cycle of one unsuppressed, non-suppressible
physical button starting from `IDLE` with empty history: press, hold below
the long-press threshold, release, stay quiet past the time window. -/
lemma short_click_run (sup idx e0 c0 dc : Nat) (al lr d0 : Bool) (cons : ButtonConstraints)
    (p0 : Nat) (ps : List Nat) (r1 r2 : Nat) (ws : List Nat) (wf fin : Nat)
    (hsup : sup.testBit idx = false)
    (hps : ∀ q ∈ ps, p0 ≤ q ∧ q - p0 ≤ cons.long_press_start_time_ms ∧ q < U32)
    (hws : ∀ w ∈ ws, r2 ≤ w ∧ w - r2 ≤ cons.time_window_time_ms ∧ w < U32)
    (hwf1 : r2 ≤ wf) (hwf2 : cons.time_window_time_ms < wf - r2) (hwf3 : wf < U32) :
    runPhys sup ⟨.IDLE, 0, e0, c0, dc, idx, .phys ⟨al, lr, d0, false, 0⟩, cons⟩
        ((true, p0) :: ps.map (fun q => (true, q))
          ++ (false, r1) :: (false, r2) :: ws.map (fun w => (false, w))
          ++ [(false, wf), (false, fin)])
      = (⟨.IDLE, 0, r2, c0, dc, idx, .phys ⟨al, lr, false, false, 0⟩, cons⟩,
         [⟨idx, .PRESSED, 1, c0, p0⟩, ⟨idx, .RELEASED, 2, c0, r2⟩,
          ⟨idx, .CLICK_FINISH, 2, c0, fin⟩]) := by
  have h01 : shiftIn 0 true = 1 := by decide
  have h12 : shiftIn 1 false = 2 := by decide
  have e1 := step_idle_active sup idx 0 e0 c0 dc p0 al lr cons hsup
  rw [h01] at e1
  have e2 := run_stay_pressed sup idx 1 p0 c0 dc al lr cons hsup ps hps
  have e3 := step_pressed_release sup idx 1 p0 c0 dc r1 0 al lr false cons hsup
  have e4 := step_release sup idx 1 r1 c0 dc r2 0 al lr false cons hsup
  rw [h12] at e4
  have e5 := run_stay_window sup idx 2 r2 c0 dc al lr false cons hsup ws hws
  have e6 := step_window_finish sup idx 2 r2 c0 dc wf 0 al lr false cons hsup hwf1 hwf3 hwf2
  have e7 := step_finish sup idx 2 r2 c0 dc fin 0 al lr false cons hsup
  simp [runPhys_cons, runPhys_append, runPhys_nil, setDebounced,
        e1, e2, e3, e4, e5, e6, e7]

/-! ## Claim C1: single short click -/

/-- C1: an unsuppressed, non-suppressible physical button starting idle with
empty history, whose debounced input is active for a duration strictly below
its long-press-start threshold, then goes inactive and stays inactive through
the time window, emits exactly one `PRESSED`, then one `RELEASED`, then one
`CLICK_FINISH` whose `state_bits` equals `0b10`, and ends back in `IDLE`. -/
theorem c1_short_click (sup idx e0 c0 dc : Nat) (al lr d0 : Bool) (cons : ButtonConstraints)
    (p0 : Nat) (ps : List Nat) (r1 r2 : Nat) (ws : List Nat) (wf fin : Nat)
    (hsup : sup.testBit idx = false)
    (hps : ∀ q ∈ ps, p0 ≤ q ∧ q - p0 < cons.long_press_start_time_ms ∧ q < U32)
    (hws : ∀ w ∈ ws, r2 ≤ w ∧ w - r2 ≤ cons.time_window_time_ms ∧ w < U32)
    (hwf1 : r2 ≤ wf) (hwf2 : cons.time_window_time_ms < wf - r2) (hwf3 : wf < U32) :
    runPhys sup ⟨.IDLE, 0, e0, c0, dc, idx, .phys ⟨al, lr, d0, false, 0⟩, cons⟩
        ((true, p0) :: ps.map (fun q => (true, q))
          ++ (false, r1) :: (false, r2) :: ws.map (fun w => (false, w))
          ++ [(false, wf), (false, fin)])
      = (⟨.IDLE, 0, r2, c0, dc, idx, .phys ⟨al, lr, false, false, 0⟩, cons⟩,
         [⟨idx, .PRESSED, 1, c0, p0⟩, ⟨idx, .RELEASED, 2, c0, r2⟩,
          ⟨idx, .CLICK_FINISH, 2, c0, fin⟩]) :=
  short_click_run sup idx e0 c0 dc al lr d0 cons p0 ps r1 r2 ws wf fin hsup
    (fun q hq => ⟨(hps q hq).1, le_of_lt (hps q hq).2.1, (hps q hq).2.2⟩) hws hwf1 hwf2 hwf3

/-- C1 witness: a concrete short click (press at 10 ms held through 30 ms,
release observed at 40/50 ms, window expires at 360 ms). -/
theorem c1_short_click_witness :
    runPhys 0 ⟨.IDLE, 0, 0, 0, 0, 5, .phys ⟨true, false, false, false, 0⟩,
        ⟨50, 1000, 500, 300⟩⟩
        ((true, 10) :: [20, 30].map (fun q => (true, q))
          ++ (false, 40) :: (false, 50) :: [60, 150].map (fun w => (false, w))
          ++ [(false, 360), (false, 370)])
      = (⟨.IDLE, 0, 50, 0, 0, 5, .phys ⟨true, false, false, false, 0⟩, ⟨50, 1000, 500, 300⟩⟩,
         [⟨5, .PRESSED, 1, 0, 10⟩, ⟨5, .RELEASED, 2, 0, 50⟩, ⟨5, .CLICK_FINISH, 2, 0, 370⟩]) :=
  c1_short_click 0 5 0 0 0 true false false ⟨50, 1000, 500, 300⟩ 10 [20, 30] 40 50 [60, 150]
    360 370 (by decide) (by decide) (by decide) (by decide) (by decide) (by decide)

/-! ## Suppression and commit-delay step lemmas -/

lemma step_suppressed_idle (sup idx B e c dc t pe : Nat) (al lr d su : Bool)
    (cons : ButtonConstraints) (hsup : sup.testBit idx = true) :
    physTick sup ⟨.IDLE, B, e, c, dc, idx, .phys ⟨al, lr, d, su, pe⟩, cons⟩ t
      = (⟨.IDLE, B, e, c, dc, idx, .phys ⟨al, lr, d, su, 0⟩, cons⟩, []) := by
  simp [physTick, setPending, hsup]

lemma step_suppressed_nonidle (sup idx B e c dc t pe : Nat) (st : InternalState)
    (al lr d su : Bool) (cons : ButtonConstraints) (hsup : sup.testBit idx = true)
    (hst : st ≠ .IDLE) :
    physTick sup ⟨st, B, e, c, dc, idx, .phys ⟨al, lr, d, su, pe⟩, cons⟩ t
      = (⟨.IDLE, 0, e, 0, dc, idx, .phys ⟨al, lr, d, su, 0⟩, cons⟩, []) := by
  simp [physTick, setPending, hsup, hst]

lemma run_suppressed_idle (sup idx B e c dc : Nat) (al lr su : Bool)
    (cons : ButtonConstraints) (hsup : sup.testBit idx = true) (d : Bool)
    (steps : List (Bool × Nat)) :
    (runPhys sup ⟨.IDLE, B, e, c, dc, idx, .phys ⟨al, lr, d, su, 0⟩, cons⟩ steps).2 = []
    ∧ (runPhys sup ⟨.IDLE, B, e, c, dc, idx, .phys ⟨al, lr, d, su, 0⟩, cons⟩
        steps).1.current_state = .IDLE
    ∧ (runPhys sup ⟨.IDLE, B, e, c, dc, idx, .phys ⟨al, lr, d, su, 0⟩, cons⟩
        steps).1.state_bits = B
    ∧ (runPhys sup ⟨.IDLE, B, e, c, dc, idx, .phys ⟨al, lr, d, su, 0⟩, cons⟩
        steps).1.long_press_cnt = c
    ∧ (runPhys sup ⟨.IDLE, B, e, c, dc, idx, .phys ⟨al, lr, d, su, 0⟩, cons⟩
        steps).1.pending = 0 := by
  induction steps generalizing d with
  | nil => simp [runPhys, GenericButton.pending]
  | cons s t ih =>
    cases s with
    | mk dd tt =>
      have hstep := step_suppressed_idle sup idx B e c dc tt 0 al lr dd su cons hsup
      simp [runPhys_cons, setDebounced, hstep, ih]

lemma step_susp_record (sup idx B e c dc t : Nat) (al lr : Bool) (cons : ButtonConstraints)
    (hsup : sup.testBit idx = false) :
    physTick sup ⟨.IDLE, B, e, c, dc, idx, .phys ⟨al, lr, true, true, 0⟩, cons⟩ t
      = (⟨.IDLE, B, e, c, dc, idx, .phys ⟨al, lr, true, true, t⟩, cons⟩, []) := by
  simp [physTick, setPending, UpdateGenericState, hsup]

lemma step_susp_wait (sup idx B e c dc t v : Nat) (al lr : Bool) (cons : ButtonConstraints)
    (hsup : sup.testBit idx = false) (hv : v ≠ 0) (h1 : v ≤ t) (h2 : t < U32)
    (hw : t - v < COMBINED_COMMIT_DELAY_MS) :
    physTick sup ⟨.IDLE, B, e, c, dc, idx, .phys ⟨al, lr, true, true, v⟩, cons⟩ t
      = (⟨.IDLE, B, e, c, dc, idx, .phys ⟨al, lr, true, true, v⟩, cons⟩, []) := by
  simp [physTick, setPending, UpdateGenericState, hsup, hv, elapsedMs_eq h1 h2, hw]

lemma step_susp_commit (sup idx B e c dc t v : Nat) (al lr : Bool) (cons : ButtonConstraints)
    (hsup : sup.testBit idx = false) (hv : v ≠ 0) (h1 : v ≤ t) (h2 : t < U32)
    (hc : COMBINED_COMMIT_DELAY_MS ≤ t - v) :
    physTick sup ⟨.IDLE, B, e, c, dc, idx, .phys ⟨al, lr, true, true, v⟩, cons⟩ t
      = (⟨.PRESSED, shiftIn B true, t, c, dc, idx, .phys ⟨al, lr, true, true, v⟩, cons⟩,
         [⟨idx, .PRESSED, shiftIn B true, c, t⟩]) := by
  simp [physTick, setPending, UpdateGenericState, RecordHistory, mkEvent, hsup, hv,
        elapsedMs_eq h1 h2, Nat.not_lt.mpr hc]

lemma step_susp_pressed_stay (sup idx B e c dc t v : Nat) (al lr : Bool)
    (cons : ButtonConstraints) (hsup : sup.testBit idx = false)
    (h1 : e ≤ t) (h2 : t < U32) (hstay : t - e ≤ cons.long_press_start_time_ms) :
    physTick sup ⟨.PRESSED, B, e, c, dc, idx, .phys ⟨al, lr, true, true, v⟩, cons⟩ t
      = (⟨.PRESSED, B, e, c, dc, idx, .phys ⟨al, lr, true, true, 0⟩, cons⟩, []) := by
  simp [physTick, setPending, UpdateGenericState, hsup, elapsedMs_eq h1 h2,
        Nat.not_lt.mpr hstay]

lemma run_susp_wait (sup idx B e c dc v : Nat) (al lr : Bool) (cons : ButtonConstraints)
    (hsup : sup.testBit idx = false) (hv : v ≠ 0) (ts : List Nat)
    (hts : ∀ q ∈ ts, v ≤ q ∧ q - v < COMBINED_COMMIT_DELAY_MS ∧ q < U32) :
    runPhys sup ⟨.IDLE, B, e, c, dc, idx, .phys ⟨al, lr, true, true, v⟩, cons⟩
        (ts.map (fun q => (true, q)))
      = (⟨.IDLE, B, e, c, dc, idx, .phys ⟨al, lr, true, true, v⟩, cons⟩, []) := by
  induction ts with
  | nil => simp [runPhys]
  | cons q t ih =>
    obtain ⟨hq1, hq2, hq3⟩ := hts q (by simp)
    have hstep := step_susp_wait sup idx B e c dc q v al lr cons hsup hv hq1 hq3 hq2
    have hrest := ih (fun w hw => hts w (by simp [hw]))
    simp [runPhys_cons, setDebounced, hstep, hrest]

/-! ## Claim C4: suppression of physical buttons -/

/-- C4 counterexample: a suppressed physical button that is already `IDLE`
but still carries leftover history (`state_bits = 2`, reachable through
`RELEASE_WINDOW → IDLE` on a re-press) keeps its history register and repeat
counter on a suppressed tick, contrary to the claim that they are cleared;
no event is emitted. -/
theorem c4_idle_history_kept_cex :
    (physTick 1 ⟨.IDLE, 2, 0, 5, 0, 0, .phys ⟨true, true, true, false, 0⟩,
        ⟨50, 1000, 500, 300⟩⟩ 100).1.state_bits = 2
    ∧ (physTick 1 ⟨.IDLE, 2, 0, 5, 0, 0, .phys ⟨true, true, true, false, 0⟩,
        ⟨50, 1000, 500, 300⟩⟩ 100).1.long_press_cnt = 5
    ∧ (physTick 1 ⟨.IDLE, 2, 0, 5, 0, 0, .phys ⟨true, true, true, false, 0⟩,
        ⟨50, 1000, 500, 300⟩⟩ 100).2 = []
    ∧ (1 : Nat).testBit 0 = true := by
  decide

/-- C4 (amended): on every tick during which a physical button's bit is in the
suppression mask, no event of any kind is emitted for it and its state machine
ends in `IDLE` with the pending timestamp cleared; its history register and
repeat counter are cleared if the machine was not already `IDLE` when
suppression first hit (an already-idle button keeps its leftover values). -/
theorem c4_suppression_reset (sup idx B e c dc pe : Nat) (st : InternalState)
    (al lr d0 su : Bool) (cons : ButtonConstraints) (hsup : sup.testBit idx = true)
    (d1 : Bool) (t1 : Nat) (steps : List (Bool × Nat)) :
    (runPhys sup ⟨st, B, e, c, dc, idx, .phys ⟨al, lr, d0, su, pe⟩, cons⟩
        ((d1, t1) :: steps)).2 = []
    ∧ (runPhys sup ⟨st, B, e, c, dc, idx, .phys ⟨al, lr, d0, su, pe⟩, cons⟩
        ((d1, t1) :: steps)).1.current_state = .IDLE
    ∧ (runPhys sup ⟨st, B, e, c, dc, idx, .phys ⟨al, lr, d0, su, pe⟩, cons⟩
        ((d1, t1) :: steps)).1.state_bits = (if st = .IDLE then B else 0)
    ∧ (runPhys sup ⟨st, B, e, c, dc, idx, .phys ⟨al, lr, d0, su, pe⟩, cons⟩
        ((d1, t1) :: steps)).1.long_press_cnt = (if st = .IDLE then c else 0)
    ∧ (runPhys sup ⟨st, B, e, c, dc, idx, .phys ⟨al, lr, d0, su, pe⟩, cons⟩
        ((d1, t1) :: steps)).1.pending = 0 := by
  by_cases hst : st = .IDLE
  · subst hst
    have hstep := step_suppressed_idle sup idx B e c dc t1 pe al lr d1 su cons hsup
    have hrest := run_suppressed_idle sup idx B e c dc al lr su cons hsup d1 steps
    simp [runPhys_cons, setDebounced, hstep]
    exact hrest
  · have hstep := step_suppressed_nonidle sup idx B e c dc t1 pe st al lr d1 su cons hsup hst
    have hrest := run_suppressed_idle sup idx 0 e 0 dc al lr su cons hsup d1 steps
    simp [runPhys_cons, setDebounced, hstep, hst]
    exact hrest

/-- C4 witness: a suppressed button held in `LONG_PRESS` is force-reset and
stays silent over two further suppressed ticks. -/
theorem c4_suppression_reset_witness :
    (runPhys 4 ⟨.LONG_PRESS, 7, 30, 2, 0, 2, .phys ⟨true, true, true, true, 0⟩,
        ⟨50, 1000, 500, 300⟩⟩ [(true, 40), (true, 50), (true, 60)]).2 = []
    ∧ (runPhys 4 ⟨.LONG_PRESS, 7, 30, 2, 0, 2, .phys ⟨true, true, true, true, 0⟩,
        ⟨50, 1000, 500, 300⟩⟩ [(true, 40), (true, 50), (true, 60)]).1.current_state = .IDLE
    ∧ (runPhys 4 ⟨.LONG_PRESS, 7, 30, 2, 0, 2, .phys ⟨true, true, true, true, 0⟩,
        ⟨50, 1000, 500, 300⟩⟩ [(true, 40), (true, 50), (true, 60)]).1.state_bits
        = (if (InternalState.LONG_PRESS : InternalState) = .IDLE then 7 else 0)
    ∧ (runPhys 4 ⟨.LONG_PRESS, 7, 30, 2, 0, 2, .phys ⟨true, true, true, true, 0⟩,
        ⟨50, 1000, 500, 300⟩⟩ [(true, 40), (true, 50), (true, 60)]).1.long_press_cnt
        = (if (InternalState.LONG_PRESS : InternalState) = .IDLE then 2 else 0)
    ∧ (runPhys 4 ⟨.LONG_PRESS, 7, 30, 2, 0, 2, .phys ⟨true, true, true, true, 0⟩,
        ⟨50, 1000, 500, 300⟩⟩ [(true, 40), (true, 50), (true, 60)]).1.pending = 0 :=
  c4_suppression_reset 4 2 7 30 2 0 0 .LONG_PRESS true true true true ⟨50, 1000, 500, 300⟩
    (by decide) true 40 [(true, 50), (true, 60)]

/-! ## Claim C5: commit delay of suppressible buttons -/

/-- C5: a suppressible physical button pressed alone (never suppressed) emits
nothing on the tick its debounced input first goes active; the pending
timestamp is recorded and the press is withheld for every tick within the
`COMBINED_COMMIT_DELAY_MS` window; the first tick at or past the window emits
exactly one `PRESSED`, and the tick after that clears the pending timestamp;
if instead a suppressing chord consumes the button's bit while the press is
pending, the pending press is discarded with no event. -/
theorem c5_commit_delay (sup idx B e0 c0 dc : Nat) (al lr d0 : Bool)
    (cons : ButtonConstraints) (t0 : Nat) (ws : List Nat) (t1 t2 : Nat)
    (hsup : sup.testBit idx = false) (h0 : 0 < t0)
    (hws : ∀ w ∈ ws, t0 ≤ w ∧ w - t0 < COMBINED_COMMIT_DELAY_MS ∧ w < U32)
    (ht1a : t0 ≤ t1) (ht1b : COMBINED_COMMIT_DELAY_MS ≤ t1 - t0) (ht1c : t1 < U32)
    (ht2a : t1 ≤ t2) (ht2b : t2 - t1 ≤ cons.long_press_start_time_ms) (ht2c : t2 < U32) :
    runPhys sup ⟨.IDLE, B, e0, c0, dc, idx, .phys ⟨al, lr, d0, true, 0⟩, cons⟩
        ((true, t0) :: ws.map (fun q => (true, q)))
      = (⟨.IDLE, B, e0, c0, dc, idx, .phys ⟨al, lr, true, true, t0⟩, cons⟩, [])
    ∧ runPhys sup ⟨.IDLE, B, e0, c0, dc, idx, .phys ⟨al, lr, true, true, t0⟩, cons⟩
        [(true, t1), (true, t2)]
      = (⟨.PRESSED, shiftIn B true, t1, c0, dc, idx, .phys ⟨al, lr, true, true, 0⟩, cons⟩,
         [⟨idx, .PRESSED, shiftIn B true, c0, t1⟩])
    ∧ (∀ sup' td, sup'.testBit idx = true →
        physTick sup' (setDebounced ⟨.IDLE, B, e0, c0, dc, idx,
            .phys ⟨al, lr, true, true, t0⟩, cons⟩ true) td
          = (⟨.IDLE, B, e0, c0, dc, idx, .phys ⟨al, lr, true, true, 0⟩, cons⟩, [])) := by
  have hv : t0 ≠ 0 := by omega
  refine ⟨?_, ?_, ?_⟩
  · have hstep := step_susp_record sup idx B e0 c0 dc t0 al lr cons hsup
    have hrest := run_susp_wait sup idx B e0 c0 dc t0 al lr cons hsup hv ws hws
    simp [runPhys_cons, setDebounced, hstep, hrest]
  · have hstep := step_susp_commit sup idx B e0 c0 dc t1 t0 al lr cons hsup hv ht1a ht1c ht1b
    have hstep2 := step_susp_pressed_stay sup idx (shiftIn B true) t1 c0 dc t2 t0 al lr cons
      hsup ht2a ht2c ht2b
    simp [runPhys_cons, runPhys_nil, setDebounced, hstep, hstep2]
  · intro sup' td hsup'
    have hstep := step_suppressed_idle sup' idx B e0 c0 dc td t0 al lr true true cons hsup'
    simp [setDebounced, hstep]

/-- C5 witness: press at 10 ms, waits at 20/30 ms, commit at 60 ms, the
following tick at 70 ms clears the pending timestamp; a suppressed tick while
pending discards the press. -/
theorem c5_commit_delay_witness :
    runPhys 0 ⟨.IDLE, 0, 0, 0, 0, 0, .phys ⟨true, false, false, true, 0⟩,
        ⟨50, 1000, 500, 300⟩⟩ ((true, 10) :: [20, 30].map (fun q => (true, q)))
      = (⟨.IDLE, 0, 0, 0, 0, 0, .phys ⟨true, false, true, true, 10⟩, ⟨50, 1000, 500, 300⟩⟩, [])
    ∧ runPhys 0 ⟨.IDLE, 0, 0, 0, 0, 0, .phys ⟨true, false, true, true, 10⟩,
        ⟨50, 1000, 500, 300⟩⟩ [(true, 60), (true, 70)]
      = (⟨.PRESSED, shiftIn 0 true, 60, 0, 0, 0, .phys ⟨true, false, true, true, 0⟩,
          ⟨50, 1000, 500, 300⟩⟩, [⟨0, .PRESSED, shiftIn 0 true, 0, 60⟩])
    ∧ (∀ sup' td, sup'.testBit 0 = true →
        physTick sup' (setDebounced ⟨.IDLE, 0, 0, 0, 0, 0,
            .phys ⟨true, false, true, true, 10⟩, ⟨50, 1000, 500, 300⟩⟩ true) td
          = (⟨.IDLE, 0, 0, 0, 0, 0, .phys ⟨true, false, true, true, 0⟩,
              ⟨50, 1000, 500, 300⟩⟩, [])) :=
  c5_commit_delay 0 0 0 0 0 0 true false false ⟨50, 1000, 500, 300⟩ 10 [20, 30] 60 70
    (by decide) (by decide) (by decide) (by decide) (by decide) (by decide) (by decide)
    (by decide) (by decide)

/-! ## Claim C2: which transitions touch the click-history register -/

/-- C2 counterexample: in state `LONG_PRESS`, an elapsed hold period emits
`LONG_PRESS_HOLD` and does insert a bit into the history register
(`0b11` becomes `0b111`), contrary to the claim that emitting
`LONG_PRESS_HOLD` does not insert a bit. -/
theorem c2_hold_inserts_bit_cex :
    (UpdateGenericState ⟨.LONG_PRESS, 3, 0, 0, 0, 0, .phys ⟨true, true, true, false, 0⟩,
        ⟨50, 1000, 500, 300⟩⟩ true 600).2.map (fun e => e.event_type) = [.LONG_PRESS_HOLD]
    ∧ (UpdateGenericState ⟨.LONG_PRESS, 3, 0, 0, 0, 0, .phys ⟨true, true, true, false, 0⟩,
        ⟨50, 1000, 500, 300⟩⟩ true 600).1.state_bits = 7 := by
  decide

/-- C2 (amended): a state-machine step modifies the history register only by
left-shift-insert of bit 1 on the Idle→Pressed transition, on the
Pressed→LongPress transition, and on each `LONG_PRESS_HOLD` emission; by
left-shift-insert of bit 0 on the Release transition; and by the reset to
zero of the Finish step. -/
theorem c2_history_transitions (btn : GenericButton) (active : Bool) (now : Nat) :
    (UpdateGenericState btn active now).1.state_bits = btn.state_bits
    ∨ ((UpdateGenericState btn active now).1.state_bits = shiftIn btn.state_bits true
        ∧ ((btn.current_state = .IDLE
              ∧ (UpdateGenericState btn active now).1.current_state = .PRESSED
              ∧ (UpdateGenericState btn active now).2.map (fun e => e.event_type) = [.PRESSED])
           ∨ (btn.current_state = .PRESSED
              ∧ (UpdateGenericState btn active now).1.current_state = .LONG_PRESS
              ∧ (UpdateGenericState btn active now).2.map (fun e => e.event_type)
                  = [.LONG_PRESS_START])
           ∨ (btn.current_state = .LONG_PRESS
              ∧ (UpdateGenericState btn active now).2.map (fun e => e.event_type)
                  = [.LONG_PRESS_HOLD])))
    ∨ ((UpdateGenericState btn active now).1.state_bits = shiftIn btn.state_bits false
        ∧ btn.current_state = .RELEASE
        ∧ (UpdateGenericState btn active now).2.map (fun e => e.event_type) = [.RELEASED])
    ∨ ((UpdateGenericState btn active now).1.state_bits = 0 ∧ btn.current_state = .FINISH
        ∧ (UpdateGenericState btn active now).2.map (fun e => e.event_type)
            = [.CLICK_FINISH]) := by
  rcases btn with ⟨st, B, e, c, dc, idx, cfg, cons⟩
  cases st <;> cases active <;>
    simp [UpdateGenericState, RecordHistory, mkEvent] <;>
    split_ifs <;> simp

/-! ## Claim C3: greedy chord matching and consumption -/

lemma and_ne_zero_iff (a b : Nat) :
    a &&& b ≠ 0 ↔ ∃ k, a.testBit k = true ∧ b.testBit k = true := by
  constructor
  · intro h
    by_contra hnot
    push_neg at hnot
    apply h
    apply Nat.eq_of_testBit_eq
    intro k
    have := hnot k
    cases ha : a.testBit k <;> cases hb : b.testBit k <;>
      simp_all [Nat.testBit_land, Nat.zero_testBit]
  · rintro ⟨k, ha, hb⟩ h0
    have := congrArg (fun x => x.testBit k) h0
    simp [Nat.testBit_land, Nat.zero_testBit, ha, hb] at this

lemma consumedOf_testBit (cur : Nat) (cs : List GenericButton) (b : GenericButton)
    (hb : b ∈ cs) (hm : (cur &&& b.chordMask) = b.chordMask) (k : Nat)
    (hk : b.chordMask.testBit k = true) : (consumedOf cur cs).testBit k = true := by
  induction cs with
  | nil => cases hb
  | cons x rest ih =>
    rcases List.mem_cons.mp hb with hx | hrest
    · subst hx
      simp [consumedOf, Nat.testBit_lor, hm, hk]
    · simp [consumedOf, Nat.testBit_lor, ih hrest]

lemma processCombined_consumed (cur now : Nat) (cs : List GenericButton) :
    ∀ c s a : Nat,
      (processCombined cur now c s a cs).consumed = c ||| consumedOf cur cs := by
  induction cs with
  | nil => intro c s a; simp [processCombined, consumedOf]
  | cons b rest ih =>
    intro c s a
    simp only [processCombined]
    rw [ih]
    by_cases hm : (cur &&& b.chordMask) = b.chordMask <;>
      simp [consumedOf, hm, Nat.or_assoc, Nat.zero_or]

lemma processCombined_lengths (cur now : Nat) (cs : List GenericButton) :
    ∀ c s a : Nat,
      (processCombined cur now c s a cs).inputs.length = cs.length
      ∧ (processCombined cur now c s a cs).buttons.length = cs.length := by
  induction cs with
  | nil => intro c s a; simp [processCombined]
  | cons b rest ih =>
    intro c s a
    simp only [processCombined, List.length_cons]
    exact ⟨by rw [(ih _ _ _).1], by rw [(ih _ _ _).2]⟩

lemma processCombined_idx (cur now : Nat) (cs : List GenericButton) :
    ∀ c s a i, i < cs.length →
      (processCombined cur now c s a cs).inputs.getD i false
        = decide ((cur &&& (cs.getD i default).chordMask) = (cs.getD i default).chordMask
            ∧ ((c ||| consumedOf cur (cs.take i)) &&& (cs.getD i default).chordMask) = 0)
      ∧ (processCombined cur now c s a cs).buttons.getD i default
        = (UpdateGenericState (cs.getD i default)
            ((processCombined cur now c s a cs).inputs.getD i false) now).1 := by
  induction cs with
  | nil => intro c s a i hi; cases hi
  | cons b rest ih =>
    intro c s a i hi
    cases i with
    | zero =>
      constructor
      · simp only [processCombined, List.getD_cons_zero, List.take_zero, consumedOf,
                   Nat.or_zero]
        congr 1
        simp [ne_eq, not_not]
      · simp [processCombined]
    | succ n =>
      have hn : n < rest.length := by simpa using hi
      have horc : ∀ u, c ||| ((if cur &&& b.chordMask = b.chordMask then b.chordMask else 0)
            ||| u)
          = (if cur &&& b.chordMask = b.chordMask then c ||| b.chordMask else c) ||| u := by
        intro u
        by_cases hm : cur &&& b.chordMask = b.chordMask <;>
          simp [hm, Nat.or_assoc, Nat.zero_or]
      constructor
      · simp only [processCombined, List.getD_cons_succ, List.take_succ_cons, consumedOf,
                   horc]
        exact (ih _ _ _ n hn).1
      · simp only [processCombined, List.getD_cons_succ]
        exact (ih _ _ _ n hn).2

/-- C3 counterexample: with debounced mask `0b1111` and three two-key chords
with masks `0b0011`, `0b0110`, `0b1100` (descending order is trivial), the
second chord is not "matching" in the claim's sense (its bits were consumed by
the first), yet the code marks its bits consumed (`consumed = 0b1111`, not
`0b0011`), which in turn keeps the third chord inactive even though none of
the third chord's bits were consumed by any claim-"matching" chord. -/
theorem c3_consumption_cex :
    (processCombined 15 100 0 0 0
        [⟨.IDLE, 0, 0, 0, 0, 32, .comb ⟨3, false, 2⟩, ⟨50, 1000, 500, 300⟩⟩,
         ⟨.IDLE, 0, 0, 0, 0, 33, .comb ⟨6, false, 2⟩, ⟨50, 1000, 500, 300⟩⟩,
         ⟨.IDLE, 0, 0, 0, 0, 34, .comb ⟨12, false, 2⟩, ⟨50, 1000, 500, 300⟩⟩]).inputs
      = [true, false, false]
    ∧ (processCombined 15 100 0 0 0
        [⟨.IDLE, 0, 0, 0, 0, 32, .comb ⟨3, false, 2⟩, ⟨50, 1000, 500, 300⟩⟩,
         ⟨.IDLE, 0, 0, 0, 0, 33, .comb ⟨6, false, 2⟩, ⟨50, 1000, 500, 300⟩⟩,
         ⟨.IDLE, 0, 0, 0, 0, 34, .comb ⟨12, false, 2⟩, ⟨50, 1000, 500, 300⟩⟩]).consumed = 15
    ∧ (processCombined 15 100 0 0 0
        [⟨.IDLE, 0, 0, 0, 0, 32, .comb ⟨3, false, 2⟩, ⟨50, 1000, 500, 300⟩⟩,
         ⟨.IDLE, 0, 0, 0, 0, 33, .comb ⟨6, false, 2⟩, ⟨50, 1000, 500, 300⟩⟩,
         ⟨.IDLE, 0, 0, 0, 0, 34, .comb ⟨12, false, 2⟩, ⟨50, 1000, 500, 300⟩⟩]).buttons.map
          (fun b => b.current_state) = [.PRESSED, .IDLE, .IDLE]
    ∧ (15 : Nat) ≠ 3 := by
  decide

/-- C3 (amended): per tick, iterating chords in list order (descending
constituent count from setup), a chord's bits are marked consumed iff all of
its mask bits are set in the current debounced mask — regardless of prior
consumption and regardless of its own state machine's state; a chord's state
machine is driven active iff its mask bits are all set AND none of them occur
in the bits consumed by any earlier mask-satisfied chord; consequently, of two
overlapping chords both satisfied by the mask, the one processed later (the
strictly smaller constituent count after the descending sort) is not driven
active and stays `IDLE` if it was `IDLE`, while the earlier one is driven
active whenever its own bits were not consumed before it. -/
theorem c3_chord_matching (cur now : Nat) (cs : List GenericButton) (i j : Nat)
    (hij : i < j) (hj : j < cs.length)
    (hmi : (cur &&& (cs.getD i default).chordMask) = (cs.getD i default).chordMask)
    (hmj : (cur &&& (cs.getD j default).chordMask) = (cs.getD j default).chordMask)
    (hover : ((cs.getD i default).chordMask &&& (cs.getD j default).chordMask) ≠ 0) :
    (processCombined cur now 0 0 0 cs).consumed = consumedOf cur cs
    ∧ (∀ k, k < cs.length →
        (processCombined cur now 0 0 0 cs).inputs.getD k false
          = decide ((cur &&& (cs.getD k default).chordMask) = (cs.getD k default).chordMask
              ∧ (consumedOf cur (cs.take k) &&& (cs.getD k default).chordMask) = 0)
        ∧ (processCombined cur now 0 0 0 cs).buttons.getD k default
          = (UpdateGenericState (cs.getD k default)
              ((processCombined cur now 0 0 0 cs).inputs.getD k false) now).1)
    ∧ (processCombined cur now 0 0 0 cs).inputs.getD j false = false
    ∧ ((cs.getD j default).current_state = .IDLE →
        ((processCombined cur now 0 0 0 cs).buttons.getD j default).current_state = .IDLE)
    ∧ ((consumedOf cur (cs.take i) &&& (cs.getD i default).chordMask) = 0 →
        (processCombined cur now 0 0 0 cs).inputs.getD i false = true) := by
  have hchar : ∀ k, k < cs.length →
      (processCombined cur now 0 0 0 cs).inputs.getD k false
        = decide ((cur &&& (cs.getD k default).chordMask) = (cs.getD k default).chordMask
            ∧ (consumedOf cur (cs.take k) &&& (cs.getD k default).chordMask) = 0)
      ∧ (processCombined cur now 0 0 0 cs).buttons.getD k default
        = (UpdateGenericState (cs.getD k default)
            ((processCombined cur now 0 0 0 cs).inputs.getD k false) now).1 := by
    intro k hk
    have := processCombined_idx cur now cs 0 0 0 k hk
    simpa [Nat.zero_or] using this
  have hi : i < cs.length := lt_trans hij hj
  have hjctr : (consumedOf cur (cs.take j) &&& (cs.getD j default).chordMask) ≠ 0 := by
    obtain ⟨k, hki, hkj⟩ := (and_ne_zero_iff _ _).mp hover
    have hmem : cs.getD i default ∈ cs.take j := by
      have hlt : i < (cs.take j).length := by
        simp [List.length_take]
        omega
      have : (cs.take j)[i] = cs[i] := List.getElem_take cs
      rw [List.getD_eq_getElem cs default hi, ← this]
      exact List.getElem_mem hlt
    have hbit := consumedOf_testBit cur (cs.take j) (cs.getD i default) hmem hmi k hki
    exact (and_ne_zero_iff _ _).mpr ⟨k, hbit, hkj⟩
  have hjin : (processCombined cur now 0 0 0 cs).inputs.getD j false = false := by
    rw [(hchar j hj).1]
    simp only [decide_eq_false_iff_not, not_and]
    intro _ h
    exact hjctr h
  refine ⟨by simpa [Nat.zero_or] using processCombined_consumed cur now cs 0 0 0,
          hchar, hjin, ?_, ?_⟩
  · intro hidle
    have hupd : UpdateGenericState (cs.getD j default) false now
        = (cs.getD j default, []) := by
      rcases hb : cs.getD j default with ⟨st, B, e, c, dc, idx, cfg, cns⟩
      rw [hb] at hidle
      simp only at hidle
      subst hidle
      simp [UpdateGenericState]
    rw [(hchar j hj).2, hjin, hupd]
    exact hidle
  · intro hfree
    rw [(hchar i hi).1]
    simp only [decide_eq_true_eq]
    exact ⟨hmi, hfree⟩

/-- C3 witness: masks `0b11` (two keys) and `0b01` (one key), both satisfied
by `cur = 0b11`; the two-key chord is driven active, the one-key chord is
consumed and stays idle. -/
theorem c3_chord_matching_witness :
    (processCombined 3 40 0 0 0
        [⟨.IDLE, 0, 0, 0, 0, 32, .comb ⟨3, true, 2⟩, ⟨50, 1000, 500, 300⟩⟩,
         ⟨.IDLE, 0, 0, 0, 0, 33, .comb ⟨1, false, 1⟩, ⟨50, 1000, 500, 300⟩⟩]).consumed
      = consumedOf 3 [⟨.IDLE, 0, 0, 0, 0, 32, .comb ⟨3, true, 2⟩, ⟨50, 1000, 500, 300⟩⟩,
         ⟨.IDLE, 0, 0, 0, 0, 33, .comb ⟨1, false, 1⟩, ⟨50, 1000, 500, 300⟩⟩]
    ∧ (∀ k, k < ([⟨.IDLE, 0, 0, 0, 0, 32, .comb ⟨3, true, 2⟩, ⟨50, 1000, 500, 300⟩⟩,
         ⟨.IDLE, 0, 0, 0, 0, 33, .comb ⟨1, false, 1⟩, ⟨50, 1000, 500, 300⟩⟩]
           : List GenericButton).length →
        (processCombined 3 40 0 0 0
          [⟨.IDLE, 0, 0, 0, 0, 32, .comb ⟨3, true, 2⟩, ⟨50, 1000, 500, 300⟩⟩,
           ⟨.IDLE, 0, 0, 0, 0, 33, .comb ⟨1, false, 1⟩, ⟨50, 1000, 500, 300⟩⟩]).inputs.getD
            k false
          = decide ((3 &&& (([⟨.IDLE, 0, 0, 0, 0, 32, .comb ⟨3, true, 2⟩,
              ⟨50, 1000, 500, 300⟩⟩, ⟨.IDLE, 0, 0, 0, 0, 33, .comb ⟨1, false, 1⟩,
              ⟨50, 1000, 500, 300⟩⟩] : List GenericButton).getD k default).chordMask)
                = (([⟨.IDLE, 0, 0, 0, 0, 32, .comb ⟨3, true, 2⟩, ⟨50, 1000, 500, 300⟩⟩,
                    ⟨.IDLE, 0, 0, 0, 0, 33, .comb ⟨1, false, 1⟩, ⟨50, 1000, 500, 300⟩⟩]
                      : List GenericButton).getD k default).chordMask
              ∧ (consumedOf 3 (([⟨.IDLE, 0, 0, 0, 0, 32, .comb ⟨3, true, 2⟩,
                  ⟨50, 1000, 500, 300⟩⟩, ⟨.IDLE, 0, 0, 0, 0, 33, .comb ⟨1, false, 1⟩,
                  ⟨50, 1000, 500, 300⟩⟩] : List GenericButton).take k)
                  &&& (([⟨.IDLE, 0, 0, 0, 0, 32, .comb ⟨3, true, 2⟩, ⟨50, 1000, 500, 300⟩⟩,
                    ⟨.IDLE, 0, 0, 0, 0, 33, .comb ⟨1, false, 1⟩, ⟨50, 1000, 500, 300⟩⟩]
                      : List GenericButton).getD k default).chordMask) = 0)
        ∧ (processCombined 3 40 0 0 0
            [⟨.IDLE, 0, 0, 0, 0, 32, .comb ⟨3, true, 2⟩, ⟨50, 1000, 500, 300⟩⟩,
             ⟨.IDLE, 0, 0, 0, 0, 33, .comb ⟨1, false, 1⟩, ⟨50, 1000, 500, 300⟩⟩]).buttons.getD
              k default
          = (UpdateGenericState (([⟨.IDLE, 0, 0, 0, 0, 32, .comb ⟨3, true, 2⟩,
              ⟨50, 1000, 500, 300⟩⟩, ⟨.IDLE, 0, 0, 0, 0, 33, .comb ⟨1, false, 1⟩,
              ⟨50, 1000, 500, 300⟩⟩] : List GenericButton).getD k default)
              ((processCombined 3 40 0 0 0
                [⟨.IDLE, 0, 0, 0, 0, 32, .comb ⟨3, true, 2⟩, ⟨50, 1000, 500, 300⟩⟩,
                 ⟨.IDLE, 0, 0, 0, 0, 33, .comb ⟨1, false, 1⟩,
                  ⟨50, 1000, 500, 300⟩⟩]).inputs.getD k false) 40).1)
    ∧ (processCombined 3 40 0 0 0
        [⟨.IDLE, 0, 0, 0, 0, 32, .comb ⟨3, true, 2⟩, ⟨50, 1000, 500, 300⟩⟩,
         ⟨.IDLE, 0, 0, 0, 0, 33, .comb ⟨1, false, 1⟩, ⟨50, 1000, 500, 300⟩⟩]).inputs.getD
          1 false = false
    ∧ ((([⟨.IDLE, 0, 0, 0, 0, 32, .comb ⟨3, true, 2⟩, ⟨50, 1000, 500, 300⟩⟩,
          ⟨.IDLE, 0, 0, 0, 0, 33, .comb ⟨1, false, 1⟩, ⟨50, 1000, 500, 300⟩⟩]
            : List GenericButton).getD 1 default).current_state = .IDLE →
        ((processCombined 3 40 0 0 0
          [⟨.IDLE, 0, 0, 0, 0, 32, .comb ⟨3, true, 2⟩, ⟨50, 1000, 500, 300⟩⟩,
           ⟨.IDLE, 0, 0, 0, 0, 33, .comb ⟨1, false, 1⟩,
            ⟨50, 1000, 500, 300⟩⟩]).buttons.getD 1 default).current_state = .IDLE)
    ∧ ((consumedOf 3 (([⟨.IDLE, 0, 0, 0, 0, 32, .comb ⟨3, true, 2⟩, ⟨50, 1000, 500, 300⟩⟩,
          ⟨.IDLE, 0, 0, 0, 0, 33, .comb ⟨1, false, 1⟩, ⟨50, 1000, 500, 300⟩⟩]
            : List GenericButton).take 0)
          &&& (([⟨.IDLE, 0, 0, 0, 0, 32, .comb ⟨3, true, 2⟩, ⟨50, 1000, 500, 300⟩⟩,
            ⟨.IDLE, 0, 0, 0, 0, 33, .comb ⟨1, false, 1⟩, ⟨50, 1000, 500, 300⟩⟩]
              : List GenericButton).getD 0 default).chordMask) = 0 →
        (processCombined 3 40 0 0 0
          [⟨.IDLE, 0, 0, 0, 0, 32, .comb ⟨3, true, 2⟩, ⟨50, 1000, 500, 300⟩⟩,
           ⟨.IDLE, 0, 0, 0, 0, 33, .comb ⟨1, false, 1⟩, ⟨50, 1000, 500, 300⟩⟩]).inputs.getD
            0 false = true) :=
  c3_chord_matching 3 40
    [⟨.IDLE, 0, 0, 0, 0, 32, .comb ⟨3, true, 2⟩, ⟨50, 1000, 500, 300⟩⟩,
     ⟨.IDLE, 0, 0, 0, 0, 33, .comb ⟨1, false, 1⟩, ⟨50, 1000, 500, 300⟩⟩] 0 1
    (by decide) (by decide) (by decide) (by decide) (by decide)

/-! ## Claim C8: when the history register is zeroed -/

/-- Per-step history cases of the state machine: the register is unchanged,
or a left-shift-insert of one bit, or cleared to zero by the Finish step
(which emits `CLICK_FINISH` and returns to `IDLE`). -/
lemma hist_step_cases (btn : GenericButton) (active : Bool) (now : Nat) :
    (UpdateGenericState btn active now).1.state_bits = btn.state_bits
    ∨ (UpdateGenericState btn active now).1.state_bits = shiftIn btn.state_bits true
    ∨ (UpdateGenericState btn active now).1.state_bits = shiftIn btn.state_bits false
    ∨ ((UpdateGenericState btn active now).1.state_bits = 0
        ∧ btn.current_state = .FINISH
        ∧ (UpdateGenericState btn active now).1.current_state = .IDLE
        ∧ (UpdateGenericState btn active now).2.map (fun e => e.event_type)
            = [.CLICK_FINISH]) := by
  rcases btn with ⟨st, B, e, c, dc, idx, cfg, cons⟩
  cases st <;> cases active <;>
    simp [UpdateGenericState, RecordHistory, mkEvent] <;>
    split_ifs <;> simp

/-- C8 counterexample: a suppressed tick of a physical button in `PRESSED`
with history `1` clears the register to zero without any `CLICK_FINISH` (no
event at all), and that zero is not a left-shift-insert of the old value —
contrary to the claim that the register is zeroed only on the return to Idle
after a `CLICK_FINISH`. -/
theorem c8_suppression_clear_cex :
    (physTick 1 ⟨.PRESSED, 1, 10, 0, 0, 0, .phys ⟨true, true, true, false, 0⟩,
        ⟨50, 1000, 500, 300⟩⟩ 20).1.state_bits = 0
    ∧ (physTick 1 ⟨.PRESSED, 1, 10, 0, 0, 0, .phys ⟨true, true, true, false, 0⟩,
        ⟨50, 1000, 500, 300⟩⟩ 20).2 = []
    ∧ shiftIn 1 true ≠ 0 ∧ shiftIn 1 false ≠ 0 ∧ (1 : Nat) ≠ 0 := by
  decide

/-- C8 (amended): in every runtime step, the history register is unchanged or
changed by a left-shift-insert of one bit, except that it is cleared to zero
either by the Finish step (which emits `CLICK_FINISH` and returns to `IDLE`)
or by the forced reset of a suppressed physical button (which emits
nothing). -/
theorem c8_history_zeroing :
    (∀ (btn : GenericButton) (active : Bool) (now : Nat),
      (UpdateGenericState btn active now).1.state_bits = btn.state_bits
      ∨ (UpdateGenericState btn active now).1.state_bits = shiftIn btn.state_bits true
      ∨ (UpdateGenericState btn active now).1.state_bits = shiftIn btn.state_bits false
      ∨ ((UpdateGenericState btn active now).1.state_bits = 0
          ∧ btn.current_state = .FINISH
          ∧ (UpdateGenericState btn active now).1.current_state = .IDLE
          ∧ (UpdateGenericState btn active now).2.map (fun e => e.event_type)
              = [.CLICK_FINISH]))
    ∧ (∀ (sup : Nat) (btn : GenericButton) (now : Nat),
      (physTick sup btn now).1.state_bits = btn.state_bits
      ∨ (physTick sup btn now).1.state_bits = shiftIn btn.state_bits true
      ∨ (physTick sup btn now).1.state_bits = shiftIn btn.state_bits false
      ∨ ((physTick sup btn now).1.state_bits = 0
          ∧ btn.current_state = .FINISH
          ∧ (physTick sup btn now).1.current_state = .IDLE
          ∧ (physTick sup btn now).2.map (fun e => e.event_type) = [.CLICK_FINISH])
      ∨ ((physTick sup btn now).1.state_bits = 0
          ∧ sup.testBit btn.logic_index = true
          ∧ (physTick sup btn now).1.current_state = .IDLE
          ∧ (physTick sup btn now).2 = [])) := by
  refine ⟨hist_step_cases, ?_⟩
  intro sup btn now
  rcases btn with ⟨st, B, e, c, dc, idx, cfg, cons⟩
  cases cfg with
  | comb cc => simp [physTick]
  | phys p =>
    rcases p with ⟨al, lr, d, su, pe⟩
    by_cases hsup : sup.testBit idx = true
    · by_cases hst : st = .IDLE
      · subst hst
        have hstep := step_suppressed_idle sup idx B e c dc now pe al lr d su cons hsup
        simp [hstep]
      · have hstep := step_suppressed_nonidle sup idx B e c dc now pe st al lr d su cons
          hsup hst
        simp [hstep, hsup]
    · have hsupf : sup.testBit idx = false := by
        cases h : sup.testBit idx
        · rfl
        · exact absurd h hsup
      simp only [physTick, hsupf, Bool.false_eq_true, if_false]
      split_ifs with hcond hsu hpend helv
      · have := hist_step_cases
          ⟨st, B, e, c, dc, idx, .phys ⟨al, lr, d, su, now⟩, cons⟩ false now
        simpa [setPending] using this
      · have := hist_step_cases
          ⟨st, B, e, c, dc, idx, .phys ⟨al, lr, d, su, pe⟩, cons⟩ false now
        simpa [setPending] using this
      · have := hist_step_cases
          ⟨st, B, e, c, dc, idx, .phys ⟨al, lr, d, su, pe⟩, cons⟩ true now
        simpa [setPending] using this
      · have := hist_step_cases
          ⟨st, B, e, c, dc, idx, .phys ⟨al, lr, d, su, pe⟩, cons⟩ true now
        simpa [setPending] using this
      · have := hist_step_cases
          ⟨st, B, e, c, dc, idx, .phys ⟨al, lr, d, su, 0⟩, cons⟩ d now
        simpa [setPending] using this

/-! ## Claim C6: debounce confirmation filter -/

/-- C6: a raw reading that differs from the previous one never flips the
debounced output on its own tick; if the next reading differs again (a
single-tick glitch) the output is still unchanged; if instead the changed
reading repeats, the debounced output equals it after exactly
`DEBOUNCE_THRESHOLD = 2` consecutive identical readings. -/
theorem c6_debounce (st : InternalState) (B e c dc idx pe : Nat) (al lr d0 su : Bool)
    (cons : ButtonConstraints) (x y : Bool) (hx : x ≠ lr) :
    (UpdateButtonDebounce ⟨st, B, e, c, dc, idx, .phys ⟨al, lr, d0, su, pe⟩, cons⟩ x).debounced
        = d0
    ∧ (y ≠ x →
        (UpdateButtonDebounce
            (UpdateButtonDebounce ⟨st, B, e, c, dc, idx, .phys ⟨al, lr, d0, su, pe⟩, cons⟩ x)
            y).debounced = d0)
    ∧ (UpdateButtonDebounce
          (UpdateButtonDebounce ⟨st, B, e, c, dc, idx, .phys ⟨al, lr, d0, su, pe⟩, cons⟩ x)
          x).debounced = x
    ∧ DEBOUNCE_THRESHOLD = 2 := by
  cases x <;> cases y <;> cases lr <;> cases d0 <;>
    simp_all [UpdateButtonDebounce, GenericButton.debounced, DEBOUNCE_THRESHOLD]

/-- C6 witness at a concrete button and readings. -/
theorem c6_debounce_witness :
    (UpdateButtonDebounce ⟨.IDLE, 0, 0, 0, 2, 0, .phys ⟨true, false, false, false, 0⟩,
        ⟨50, 1000, 500, 300⟩⟩ true).debounced = false
    ∧ (true ≠ (true : Bool) →
        (UpdateButtonDebounce
            (UpdateButtonDebounce ⟨.IDLE, 0, 0, 0, 2, 0, .phys ⟨true, false, false, false, 0⟩,
                ⟨50, 1000, 500, 300⟩⟩ true) true).debounced = false)
    ∧ (UpdateButtonDebounce
          (UpdateButtonDebounce ⟨.IDLE, 0, 0, 0, 2, 0, .phys ⟨true, false, false, false, 0⟩,
              ⟨50, 1000, 500, 300⟩⟩ true) true).debounced = true
    ∧ DEBOUNCE_THRESHOLD = 2 :=
  c6_debounce .IDLE 0 0 0 2 0 0 true false false false ⟨50, 1000, 500, 300⟩ true true
    (by decide)

/-! ## Claim C9: queue-full drop and unconditional notification -/

/-- C9: when the bounded event queue is already full, pushing drops the record
silently (the queue is returned unchanged, no retry, no error), delivery of a
tick's emissions leaves the queue unchanged, and the typed notifications
`MakeEventId` of the logical index and the event kind are still raised for
every emission, independently of the push outcome. -/
theorem c9_queue_full_drop (q es : List EmittedEvent) (e : EmittedEvent)
    (h : QUEUE_CAPACITY ≤ q.length) :
    queuePush q e = q
    ∧ (dispatchEvents q es).1 = q
    ∧ (dispatchEvents q es).2
        = es.map (fun x => MakeEventId x.logic_index x.event_type) := by
  have hpush : ∀ x, queuePush q x = q := by
    intro x
    simp [queuePush, Nat.not_lt.mpr h]
  refine ⟨hpush e, ?_⟩
  induction es with
  | nil => simp [dispatchEvents]
  | cons a t ih =>
    simp only [dispatchEvents, hpush a, List.map_cons]
    exact ⟨ih.1, by rw [ih.2]⟩

/-- C9 witness: a full queue of 16 records drops a new record and still raises
the notification for it. -/
theorem c9_queue_full_drop_witness :
    queuePush (List.replicate 16 ⟨0, .PRESSED, 0, 0, 0⟩) ⟨1, .CLICK_FINISH, 2, 0, 50⟩
        = List.replicate 16 ⟨0, .PRESSED, 0, 0, 0⟩
    ∧ (dispatchEvents (List.replicate 16 ⟨0, .PRESSED, 0, 0, 0⟩)
          [⟨3, .RELEASED, 2, 0, 100⟩]).1 = List.replicate 16 ⟨0, .PRESSED, 0, 0, 0⟩
    ∧ (dispatchEvents (List.replicate 16 ⟨0, .PRESSED, 0, 0, 0⟩)
          [⟨3, .RELEASED, 2, 0, 100⟩]).2
        = ([⟨3, .RELEASED, 2, 0, 100⟩] : List EmittedEvent).map
            (fun x => MakeEventId x.logic_index x.event_type) :=
  c9_queue_full_drop (List.replicate 16 ⟨0, .PRESSED, 0, 0, 0⟩)
    [⟨3, .RELEASED, 2, 0, 100⟩] ⟨1, .CLICK_FINISH, 2, 0, 50⟩ (by decide)

/-! ## Claim C7: the Polling→Sleeping transition -/

lemma processCombined_active (cur now : Nat) (cs : List GenericButton) :
    ∀ c s a, (processCombined cur now c s a cs).active_count
      = a + countNonIdle (processCombined cur now c s a cs).buttons := by
  induction cs with
  | nil => intro c s a; simp [processCombined, countNonIdle]
  | cons b rest ih =>
    intro c s a
    have key : ∀ (r : GenericButton) (n a : Nat),
        (if r.current_state ≠ .IDLE then a + 1 else a) + n
          = a + (n + if decide (r.current_state ≠ .IDLE) = true then 1 else 0) := by
      intro r n a
      by_cases h : r.current_state = .IDLE <;> simp +arith [h]
    simp only [processCombined]
    rw [ih]
    simp only [countNonIdle, List.countP_cons]
    exact key _ _ _

lemma processPhysList_active (sup now : Nat) (bs : List GenericButton) :
    ∀ ac, (processPhysList sup now ac bs).active_count
      = ac + countNonIdle (processPhysList sup now ac bs).buttons := by
  induction bs with
  | nil => intro ac; simp [processPhysList, countNonIdle]
  | cons b rest ih =>
    intro ac
    have key : ∀ (r : GenericButton) (n a : Nat),
        (if r.current_state ≠ .IDLE then a + 1 else a) + n
          = a + (n + if decide (r.current_state ≠ .IDLE) = true then 1 else 0) := by
      intro r n a
      by_cases h : r.current_state = .IDLE <;> simp +arith [h]
    simp only [processPhysList]
    rw [ih]
    simp only [countNonIdle, List.countP_cons]
    exact key _ _ _

lemma allIdle_iff (bs : List GenericButton) :
    allIdle bs = true ↔ countNonIdle bs = 0 := by
  simp [allIdle, countNonIdle, List.all_eq_true, List.countP_eq_zero]

lemma tickDisable_fields (inst : ModuleState) :
    (tickDisable inst).is_polling_active = inst.is_polling_active
    ∧ (tickDisable inst).idle_hysteresis = inst.idle_hysteresis := by
  unfold tickDisable
  split_ifs <;> simp

/-- C7 counterexample: one fresh physical button, polling active, all raw
readings inactive.  After 10 consecutive all-idle ticks
(`IDLE_SLEEP_THRESHOLD = 10`, hysteresis counter at 10) polling is still
active — the transition has not happened after exactly
`IDLE_SLEEP_THRESHOLD` all-idle ticks as claimed; it happens on the 11th
all-idle tick, which stops polling and re-enables the interrupts. -/
theorem c7_offbyone_cex :
    (runTicks ⟨[⟨.IDLE, 0, 0, 0, 0, 0, .phys ⟨true, false, false, false, 0⟩,
        ⟨50, 1000, 500, 300⟩⟩], [], 0, 0, true, false, false⟩
      [([false], 10), ([false], 20), ([false], 30), ([false], 40), ([false], 50),
       ([false], 60), ([false], 70), ([false], 80), ([false], 90),
       ([false], 100)]).1.is_polling_active = true
    ∧ (runTicks ⟨[⟨.IDLE, 0, 0, 0, 0, 0, .phys ⟨true, false, false, false, 0⟩,
        ⟨50, 1000, 500, 300⟩⟩], [], 0, 0, true, false, false⟩
      [([false], 10), ([false], 20), ([false], 30), ([false], 40), ([false], 50),
       ([false], 60), ([false], 70), ([false], 80), ([false], 90),
       ([false], 100)]).1.idle_hysteresis = 10
    ∧ (runTicks ⟨[⟨.IDLE, 0, 0, 0, 0, 0, .phys ⟨true, false, false, false, 0⟩,
        ⟨50, 1000, 500, 300⟩⟩], [], 0, 0, true, false, false⟩
      [([false], 10), ([false], 20), ([false], 30), ([false], 40), ([false], 50),
       ([false], 60), ([false], 70), ([false], 80), ([false], 90),
       ([false], 100)]).1.current_mask = 0
    ∧ allIdle (runTicks ⟨[⟨.IDLE, 0, 0, 0, 0, 0, .phys ⟨true, false, false, false, 0⟩,
        ⟨50, 1000, 500, 300⟩⟩], [], 0, 0, true, false, false⟩
      [([false], 10), ([false], 20), ([false], 30), ([false], 40), ([false], 50),
       ([false], 60), ([false], 70), ([false], 80), ([false], 90),
       ([false], 100)]).1.physical = true
    ∧ IDLE_SLEEP_THRESHOLD = 10
    ∧ (runTicks ⟨[⟨.IDLE, 0, 0, 0, 0, 0, .phys ⟨true, false, false, false, 0⟩,
        ⟨50, 1000, 500, 300⟩⟩], [], 0, 0, true, false, false⟩
      [([false], 10), ([false], 20), ([false], 30), ([false], 40), ([false], 50),
       ([false], 60), ([false], 70), ([false], 80), ([false], 90), ([false], 100),
       ([false], 110)]).1.is_polling_active = false
    ∧ (runTicks ⟨[⟨.IDLE, 0, 0, 0, 0, 0, .phys ⟨true, false, false, false, 0⟩,
        ⟨50, 1000, 500, 300⟩⟩], [], 0, 0, true, false, false⟩
      [([false], 10), ([false], 20), ([false], 30), ([false], 40), ([false], 50),
       ([false], 60), ([false], 70), ([false], 80), ([false], 90), ([false], 100),
       ([false], 110)]).1.interrupts_enabled = true := by
  decide

/-- C7 (amended): on an all-idle tick (debounced mask zero and every updated
state machine, chord and physical, in `IDLE`) the hysteresis counter is
incremented; the Polling→Sleeping transition (periodic callback stopped, edge
interrupts re-enabled) fires exactly when the incremented counter exceeds
`IDLE_SLEEP_THRESHOLD`, i.e. on the `IDLE_SLEEP_THRESHOLD + 1`-st consecutive
all-idle tick; below that polling continues, and any tick that is not all-idle
resets the counter to zero and leaves polling running. -/
theorem c7_sleep_transition (inst : ModuleState) (reads : List Bool) (now : Nat) :
    ((StateTimerOnTick inst reads now).1.current_mask = 0
      ∧ allIdle (StateTimerOnTick inst reads now).1.combined = true
      ∧ allIdle (StateTimerOnTick inst reads now).1.physical = true →
      (StateTimerOnTick inst reads now).1.idle_hysteresis = inst.idle_hysteresis + 1
      ∧ (IDLE_SLEEP_THRESHOLD < inst.idle_hysteresis + 1 →
          (StateTimerOnTick inst reads now).1.is_polling_active = false
          ∧ (StateTimerOnTick inst reads now).1.interrupts_enabled = true)
      ∧ (inst.idle_hysteresis + 1 ≤ IDLE_SLEEP_THRESHOLD →
          (StateTimerOnTick inst reads now).1.is_polling_active = inst.is_polling_active))
    ∧ (¬((StateTimerOnTick inst reads now).1.current_mask = 0
          ∧ allIdle (StateTimerOnTick inst reads now).1.combined = true
          ∧ allIdle (StateTimerOnTick inst reads now).1.physical = true) →
        (StateTimerOnTick inst reads now).1.idle_hysteresis = 0
        ∧ (StateTimerOnTick inst reads now).1.is_polling_active
            = inst.is_polling_active) := by
  have hfst : (StateTimerOnTick inst reads now).1
      = sleepCheck (tickPre inst reads now) (tickPhysOut inst reads now).active_count := rfl
  have hacP := processPhysList_active (tickComb inst reads now).suppression now
    (tickPhys1 inst reads) (tickComb inst reads now).active_count
  have hacC := processCombined_active (tickCur inst reads) now
    (tickDisable inst).combined 0 0 0
  have hac : (tickPhysOut inst reads now).active_count
      = countNonIdle (tickComb inst reads now).buttons
        + countNonIdle (tickPhysOut inst reads now).buttons := by
    have h1 : tickPhysOut inst reads now
        = processPhysList (tickComb inst reads now).suppression now
            (tickComb inst reads now).active_count (tickPhys1 inst reads) := rfl
    have h2 : tickComb inst reads now
        = processCombined (tickCur inst reads) now 0 0 0 (tickDisable inst).combined := rfl
    rw [h1, hacP, ← h1, h2, hacC, ← h2]
    omega
  have hpoll := (tickDisable_fields inst).1
  have hhyst := (tickDisable_fields inst).2
  have hcond : ((StateTimerOnTick inst reads now).1.current_mask = 0
        ∧ allIdle (StateTimerOnTick inst reads now).1.combined = true
        ∧ allIdle (StateTimerOnTick inst reads now).1.physical = true)
      ↔ ((tickPre inst reads now).current_mask = 0
          ∧ (tickPhysOut inst reads now).active_count = 0) := by
    rw [hfst]
    have hm : (sleepCheck (tickPre inst reads now)
        (tickPhysOut inst reads now).active_count).current_mask
        = (tickPre inst reads now).current_mask := by
      unfold sleepCheck EnterSleepMode
      split_ifs <;> rfl
    have hb : (sleepCheck (tickPre inst reads now)
        (tickPhysOut inst reads now).active_count).combined
        = (tickComb inst reads now).buttons := by
      unfold sleepCheck EnterSleepMode
      split_ifs <;> rfl
    have hp : (sleepCheck (tickPre inst reads now)
        (tickPhysOut inst reads now).active_count).physical
        = (tickPhysOut inst reads now).buttons := by
      unfold sleepCheck EnterSleepMode
      split_ifs <;> rfl
    rw [hm, hb, hp, allIdle_iff, allIdle_iff, hac]
    omega
  have hhy2 : (tickPre inst reads now).idle_hysteresis = inst.idle_hysteresis := hhyst
  have hpo2 : (tickPre inst reads now).is_polling_active = inst.is_polling_active := hpoll
  rw [hcond, hfst]
  constructor
  · intro h
    unfold sleepCheck
    rw [if_pos h]
    by_cases hth : IDLE_SLEEP_THRESHOLD < (tickPre inst reads now).idle_hysteresis + 1
    · rw [if_pos hth]
      rw [hhy2] at hth
      refine ⟨?_, fun _ => ⟨rfl, rfl⟩, fun hle => absurd hth (by omega)⟩
      show (tickPre inst reads now).idle_hysteresis + 1 = inst.idle_hysteresis + 1
      rw [hhy2]
    · rw [if_neg hth]
      rw [hhy2] at hth
      refine ⟨?_, fun hlt => absurd hlt hth, fun _ => ?_⟩
      · show (tickPre inst reads now).idle_hysteresis + 1 = inst.idle_hysteresis + 1
        rw [hhy2]
      · exact hpo2
  · intro h
    unfold sleepCheck
    rw [if_neg h]
    exact ⟨rfl, hpo2⟩

/-- C7 witness: a non-idle tick (button held) resets the hysteresis counter
and keeps polling running. -/
theorem c7_sleep_transition_witness :
    ¬((StateTimerOnTick ⟨[⟨.PRESSED, 1, 10, 0, 2, 0,
          .phys ⟨true, true, true, false, 0⟩, ⟨50, 1000, 500, 300⟩⟩], [], 1, 3, true,
          false, false⟩ [true] 20).1.current_mask = 0
        ∧ allIdle (StateTimerOnTick ⟨[⟨.PRESSED, 1, 10, 0, 2, 0,
            .phys ⟨true, true, true, false, 0⟩, ⟨50, 1000, 500, 300⟩⟩], [], 1, 3, true,
            false, false⟩ [true] 20).1.combined = true
        ∧ allIdle (StateTimerOnTick ⟨[⟨.PRESSED, 1, 10, 0, 2, 0,
            .phys ⟨true, true, true, false, 0⟩, ⟨50, 1000, 500, 300⟩⟩], [], 1, 3, true,
            false, false⟩ [true] 20).1.physical = true) →
      (StateTimerOnTick ⟨[⟨.PRESSED, 1, 10, 0, 2, 0,
          .phys ⟨true, true, true, false, 0⟩, ⟨50, 1000, 500, 300⟩⟩], [], 1, 3, true,
          false, false⟩ [true] 20).1.idle_hysteresis = 0
      ∧ (StateTimerOnTick ⟨[⟨.PRESSED, 1, 10, 0, 2, 0,
          .phys ⟨true, true, true, false, 0⟩, ⟨50, 1000, 500, 300⟩⟩], [], 1, 3, true,
          false, false⟩ [true] 20).1.is_polling_active = true :=
  (c7_sleep_transition ⟨[⟨.PRESSED, 1, 10, 0, 2, 0,
      .phys ⟨true, true, true, false, 0⟩, ⟨50, 1000, 500, 300⟩⟩], [], 1, 3, true,
      false, false⟩ [true] 20).2

/-! ## Claim C10: the long-press repeat counter across cycles -/

lemma step_pressed_to_long (sup idx B e c dc t : Nat) (al lr : Bool)
    (cons : ButtonConstraints) (hsup : sup.testBit idx = false) (h1 : e ≤ t) (h2 : t < U32)
    (hlp : cons.long_press_start_time_ms < t - e) :
    physTick sup ⟨.PRESSED, B, e, c, dc, idx, .phys ⟨al, lr, true, false, 0⟩, cons⟩ t
      = (⟨.LONG_PRESS, shiftIn B true, t, 0, dc, idx, .phys ⟨al, lr, true, false, 0⟩, cons⟩,
         [⟨idx, .LONG_PRESS_START, shiftIn B true, 0, t⟩]) := by
  simp [physTick, setPending, UpdateGenericState, RecordHistory, mkEvent, hsup,
        elapsedMs_eq h1 h2, hlp]

lemma step_long_hold (sup idx B e c dc t : Nat) (al lr : Bool)
    (cons : ButtonConstraints) (hsup : sup.testBit idx = false) (h1 : e ≤ t) (h2 : t < U32)
    (hp : cons.long_press_period_triger_ms < t - e) :
    physTick sup ⟨.LONG_PRESS, B, e, c, dc, idx, .phys ⟨al, lr, true, false, 0⟩, cons⟩ t
      = (⟨.LONG_PRESS, shiftIn B true, t, (c + 1) % U16, dc, idx,
          .phys ⟨al, lr, true, false, 0⟩, cons⟩,
         [⟨idx, .LONG_PRESS_HOLD, shiftIn B true, (c + 1) % U16, t⟩]) := by
  simp [physTick, setPending, UpdateGenericState, RecordHistory, mkEvent, hsup,
        elapsedMs_eq h1 h2, hp]

lemma step_long_release (sup idx B e c dc t pe : Nat) (al lr su : Bool)
    (cons : ButtonConstraints) (hsup : sup.testBit idx = false) :
    physTick sup ⟨.LONG_PRESS, B, e, c, dc, idx, .phys ⟨al, lr, false, su, pe⟩, cons⟩ t
      = (⟨.RELEASE, B, t, c, dc, idx, .phys ⟨al, lr, false, su, 0⟩, cons⟩, []) := by
  simp [physTick, setPending, UpdateGenericState, hsup]

lemma run_holds (sup idx dc : Nat) (al lr : Bool) (cons : ButtonConstraints)
    (hsup : sup.testBit idx = false) :
    ∀ (hs : List Nat) (e B c : Nat),
      holdChainB cons.long_press_period_triger_ms e hs = true →
      c + hs.length < U16 →
      ∃ B' evs,
        runPhys sup ⟨.LONG_PRESS, B, e, c, dc, idx, .phys ⟨al, lr, true, false, 0⟩, cons⟩
            (hs.map (fun h => (true, h)))
          = (⟨.LONG_PRESS, B', hs.getLastD e, c + hs.length, dc, idx,
              .phys ⟨al, lr, true, false, 0⟩, cons⟩, evs)
        ∧ evs.map (fun ev => (ev.event_type, ev.long_press_count)) = holdEvCnts c hs := by
  intro hs
  induction hs with
  | nil =>
    intro e B c hchain hcnt
    exact ⟨B, [], by simp [runPhys], by simp [holdEvCnts]⟩
  | cons h t ih =>
    intro e B c hchain hcnt
    have hch : (e ≤ h ∧ cons.long_press_period_triger_ms + e < h ∧ h < U32)
        ∧ holdChainB cons.long_press_period_triger_ms h t = true := by
      simpa [holdChainB, Bool.and_eq_true, decide_eq_true_eq, and_assoc] using hchain
    obtain ⟨⟨h1, h2, h3⟩, h4⟩ := hch
    have hc1 : (c + 1) % U16 = c + 1 := by
      have : c + 1 < U16 := by simp at hcnt; omega
      exact Nat.mod_eq_of_lt this
    have hstep := step_long_hold sup idx B e c dc h al lr cons hsup h1 h3 (by omega)
    rw [hc1] at hstep
    obtain ⟨B', evs', hrun, hmap⟩ := ih h (shiftIn B true) (c + 1) h4 (by simp at hcnt ⊢; omega)
    refine ⟨B', ⟨idx, .LONG_PRESS_HOLD, shiftIn B true, c + 1, h⟩ :: evs', ?_, ?_⟩
    · have hlen : c + 1 + t.length = c + (t.length + 1) := by omega
      have hgl : t.getLast?.getD h = (h :: t).getLast?.getD e := by
        simpa using (List.getLastD_cons e h t).symm
      simp [runPhys_cons, setDebounced, hstep, hrun, List.getLastD_cons, hlen]
      exact hgl
    · simp [hmap, holdEvCnts]

lemma cnt_step_cases (btn : GenericButton) (active : Bool) (now : Nat) :
    (UpdateGenericState btn active now).1.long_press_cnt = btn.long_press_cnt
    ∨ ((UpdateGenericState btn active now).1.long_press_cnt = 0
        ∧ btn.current_state = .PRESSED
        ∧ (UpdateGenericState btn active now).1.current_state = .LONG_PRESS)
    ∨ ((UpdateGenericState btn active now).1.long_press_cnt
          = (btn.long_press_cnt + 1) % U16
        ∧ btn.current_state = .LONG_PRESS
        ∧ (UpdateGenericState btn active now).2.map (fun e => e.event_type)
            = [.LONG_PRESS_HOLD]) := by
  rcases btn with ⟨st, B, e, c, dc, idx, cfg, cons⟩
  cases st <;> cases active <;>
    simp [UpdateGenericState, RecordHistory, mkEvent] <;>
    split_ifs <;> simp

/-- C10: the Finish step clears only the history register (the repeat counter
is untouched by `CLICK_FINISH` and the return to `IDLE`); within the state
machine the counter changes only on entry to `LongPress` (reset) and on each
`LONG_PRESS_HOLD` (increment), plus the suppression reset of a physical
button; therefore a short-click cycle that follows an earlier long-press
cycle of the same unsuppressed button emits its `CLICK_FINISH` with
`state_bits = 0b10` but `long_press_count` equal to the earlier cycle's
repeat count. -/
theorem c10_stale_long_press_count (sup idx e0 c0 dc : Nat) (al lr d0 : Bool)
    (cons : ButtonConstraints) (p0 tL : Nat) (hs : List Nat) (r1 r2 wf fin : Nat)
    (s0 s1 s2 wf2 fin2 : Nat)
    (hsup : sup.testBit idx = false)
    (hp0 : p0 ≤ tL) (htLU : tL < U32) (htL : cons.long_press_start_time_ms < tL - p0)
    (hchain : holdChainB cons.long_press_period_triger_ms tL hs = true)
    (hcnt : hs.length < U16)
    (hwf1 : r2 ≤ wf) (hwf2 : cons.time_window_time_ms < wf - r2) (hwf3 : wf < U32)
    (hwg1 : s2 ≤ wf2) (hwg2 : cons.time_window_time_ms < wf2 - s2) (hwg3 : wf2 < U32) :
    (∃ evs,
      runPhys sup ⟨.IDLE, 0, e0, c0, dc, idx, .phys ⟨al, lr, d0, false, 0⟩, cons⟩
          ((true, p0) :: (true, tL) :: hs.map (fun h => (true, h))
            ++ (false, r1) :: (false, r2) :: [(false, wf), (false, fin)])
        = (⟨.IDLE, 0, r2, hs.length, dc, idx, .phys ⟨al, lr, false, false, 0⟩, cons⟩, evs)
      ∧ evs.map (fun ev => (ev.event_type, ev.long_press_count))
        = (.PRESSED, c0) :: (.LONG_PRESS_START, 0) :: holdEvCnts 0 hs
            ++ [(.RELEASED, hs.length), (.CLICK_FINISH, hs.length)])
    ∧ runPhys sup ⟨.IDLE, 0, r2, hs.length, dc, idx, .phys ⟨al, lr, false, false, 0⟩, cons⟩
          [(true, s0), (false, s1), (false, s2), (false, wf2), (false, fin2)]
        = (⟨.IDLE, 0, s2, hs.length, dc, idx, .phys ⟨al, lr, false, false, 0⟩, cons⟩,
           [⟨idx, .PRESSED, 1, hs.length, s0⟩, ⟨idx, .RELEASED, 2, hs.length, s2⟩,
            ⟨idx, .CLICK_FINISH, 2, hs.length, fin2⟩])
    ∧ (∀ (btn : GenericButton) (active : Bool) (now : Nat),
        btn.current_state = .FINISH →
        UpdateGenericState btn active now
          = ({ btn with state_bits := 0, current_state := .IDLE },
             [mkEvent btn .CLICK_FINISH now]))
    ∧ (∀ (btn : GenericButton) (active : Bool) (now : Nat),
        (UpdateGenericState btn active now).1.long_press_cnt = btn.long_press_cnt
        ∨ ((UpdateGenericState btn active now).1.long_press_cnt = 0
            ∧ btn.current_state = .PRESSED
            ∧ (UpdateGenericState btn active now).1.current_state = .LONG_PRESS)
        ∨ ((UpdateGenericState btn active now).1.long_press_cnt
              = (btn.long_press_cnt + 1) % U16
            ∧ btn.current_state = .LONG_PRESS
            ∧ (UpdateGenericState btn active now).2.map (fun e => e.event_type)
                = [.LONG_PRESS_HOLD]))
    ∧ (∀ (sup' : Nat) (btn : GenericButton) (now : Nat),
        (physTick sup' btn now).1.long_press_cnt = btn.long_press_cnt
        ∨ ((physTick sup' btn now).1.long_press_cnt = 0
            ∧ (sup'.testBit btn.logic_index = true
               ∨ (physTick sup' btn now).1.current_state = .LONG_PRESS))
        ∨ ((physTick sup' btn now).1.long_press_cnt = (btn.long_press_cnt + 1) % U16
            ∧ btn.current_state = .LONG_PRESS)) := by
  have h01 : shiftIn 0 true = 1 := by decide
  refine ⟨?_, ?_, ?_, cnt_step_cases, ?_⟩
  · have e1 := step_idle_active sup idx 0 e0 c0 dc p0 al lr cons hsup
    rw [h01] at e1
    have e2 := step_pressed_to_long sup idx 1 p0 c0 dc tL al lr cons hsup hp0 htLU htL
    obtain ⟨B', evs', hrun, hmap⟩ :=
      run_holds sup idx dc al lr cons hsup hs tL (shiftIn 1 true) 0 hchain
        (by simpa using hcnt)
    have e3 := step_long_release sup idx B' (hs.getLastD tL) hs.length dc r1 0
      al lr false cons hsup
    have e4 := step_release sup idx B' r1 hs.length dc r2 0 al lr false cons hsup
    have e5 := step_window_finish sup idx (shiftIn B' false) r2 hs.length dc wf 0
      al lr false cons hsup hwf1 hwf3 hwf2
    have e6 := step_finish sup idx (shiftIn B' false) r2 hs.length dc fin 0
      al lr false cons hsup
    refine ⟨?_, ?_, ?_⟩
    · exact ⟨idx, .PRESSED, 1, c0, p0⟩ :: ⟨idx, .LONG_PRESS_START, shiftIn 1 true, 0, tL⟩
        :: evs' ++ [⟨idx, .RELEASED, shiftIn B' false, hs.length, r2⟩,
                    ⟨idx, .CLICK_FINISH, shiftIn B' false, hs.length, fin⟩]
    · simp only [runPhys_cons, runPhys_append, runPhys_nil, setDebounced, e1, e2, hrun,
        e3, e4, e5, e6, Nat.zero_add, List.nil_append, List.append_nil, List.cons_append,
        List.append_assoc, List.singleton_append]
    · simp [hmap, holdEvCnts]
  · have hshort := short_click_run sup idx r2 hs.length dc al lr false cons s0 [] s1 s2 []
      wf2 fin2 hsup (by simp) (by simp) hwg1 hwg2 hwg3
    simpa using hshort
  · intro btn active now hfin
    rcases btn with ⟨st, B, e, c, dc', idx', cfg, cons'⟩
    simp only at hfin
    subst hfin
    simp [UpdateGenericState, mkEvent]
  · intro sup' btn now
    rcases btn with ⟨st, B, e, c, dc', idx', cfg, cons'⟩
    cases cfg with
    | comb cc => simp [physTick]
    | phys p =>
      rcases p with ⟨al', lr', d', su', pe'⟩
      by_cases hsup' : sup'.testBit idx' = true
      · by_cases hst : st = .IDLE
        · subst hst
          have hstep := step_suppressed_idle sup' idx' B e c dc' now pe' al' lr' d' su'
            cons' hsup'
          simp [hstep]
        · have hstep := step_suppressed_nonidle sup' idx' B e c dc' now pe' st al' lr' d'
            su' cons' hsup' hst
          simp [hstep, hsup']
      · have hsupf : sup'.testBit idx' = false := by
          cases hb : sup'.testBit idx'
          · rfl
          · exact absurd hb hsup'
        simp only [physTick, hsupf, Bool.false_eq_true, if_false]
        split_ifs with hcond hsu hpend helv
        · have := cnt_step_cases
            ⟨st, B, e, c, dc', idx', .phys ⟨al', lr', d', su', now⟩, cons'⟩ false now
          rcases this with hsame | hreset | hincr
          · left; simpa [setPending] using hsame
          · right; left
            refine ⟨by simpa [setPending] using hreset.1, ?_⟩
            right
            simpa [setPending] using hreset.2.2
          · right; right
            exact ⟨by simpa [setPending] using hincr.1, by simpa [setPending] using hincr.2.1⟩
        · have := cnt_step_cases
            ⟨st, B, e, c, dc', idx', .phys ⟨al', lr', d', su', pe'⟩, cons'⟩ false now
          rcases this with hsame | hreset | hincr
          · left; simpa using hsame
          · right; left
            exact ⟨by simpa using hreset.1, Or.inr (by simpa using hreset.2.2)⟩
          · right; right
            exact ⟨by simpa using hincr.1, by simpa using hincr.2.1⟩
        · have := cnt_step_cases
            ⟨st, B, e, c, dc', idx', .phys ⟨al', lr', d', su', pe'⟩, cons'⟩ true now
          rcases this with hsame | hreset | hincr
          · left; simpa using hsame
          · right; left
            exact ⟨by simpa using hreset.1, Or.inr (by simpa using hreset.2.2)⟩
          · right; right
            exact ⟨by simpa using hincr.1, by simpa using hincr.2.1⟩
        · have := cnt_step_cases
            ⟨st, B, e, c, dc', idx', .phys ⟨al', lr', d', su', pe'⟩, cons'⟩ true now
          rcases this with hsame | hreset | hincr
          · left; simpa using hsame
          · right; left
            exact ⟨by simpa using hreset.1, Or.inr (by simpa using hreset.2.2)⟩
          · right; right
            exact ⟨by simpa using hincr.1, by simpa using hincr.2.1⟩
        · have := cnt_step_cases
            ⟨st, B, e, c, dc', idx', .phys ⟨al', lr', d', su', 0⟩, cons'⟩ d' now
          rcases this with hsame | hreset | hincr
          · left; simpa [setPending] using hsame
          · right; left
            refine ⟨by simpa [setPending] using hreset.1, ?_⟩
            right
            simpa [setPending] using hreset.2.2
          · right; right
            exact ⟨by simpa [setPending] using hincr.1, by simpa [setPending] using hincr.2.1⟩

/-- C10 witness: long-press cycle with two holds (repeat count 2), then a
short click whose `CLICK_FINISH` carries `state_bits = 2` and
`long_press_count = 2`. -/
theorem c10_stale_long_press_count_witness :
    (∃ evs,
      runPhys 0 ⟨.IDLE, 0, 0, 0, 0, 1, .phys ⟨true, false, false, false, 0⟩,
          ⟨50, 1000, 500, 300⟩⟩
          ((true, 10) :: (true, 1020) :: [1530, 2040].map (fun h => (true, h))
            ++ (false, 2050) :: (false, 2060) :: [(false, 2400), (false, 2410)])
        = (⟨.IDLE, 0, 2060, ([1530, 2040] : List Nat).length, 0, 1,
            .phys ⟨true, false, false, false, 0⟩, ⟨50, 1000, 500, 300⟩⟩, evs)
      ∧ evs.map (fun ev => (ev.event_type, ev.long_press_count))
        = (.PRESSED, 0) :: (.LONG_PRESS_START, 0) :: holdEvCnts 0 [1530, 2040]
            ++ [(.RELEASED, ([1530, 2040] : List Nat).length),
                (.CLICK_FINISH, ([1530, 2040] : List Nat).length)])
    ∧ runPhys 0 ⟨.IDLE, 0, 2060, ([1530, 2040] : List Nat).length, 0, 1,
          .phys ⟨true, false, false, false, 0⟩, ⟨50, 1000, 500, 300⟩⟩
          [(true, 2500), (false, 2510), (false, 2520), (false, 2830), (false, 2840)]
        = (⟨.IDLE, 0, 2520, ([1530, 2040] : List Nat).length, 0, 1,
            .phys ⟨true, false, false, false, 0⟩, ⟨50, 1000, 500, 300⟩⟩,
           [⟨1, .PRESSED, 1, ([1530, 2040] : List Nat).length, 2500⟩,
            ⟨1, .RELEASED, 2, ([1530, 2040] : List Nat).length, 2520⟩,
            ⟨1, .CLICK_FINISH, 2, ([1530, 2040] : List Nat).length, 2840⟩])
    ∧ (∀ (btn : GenericButton) (active : Bool) (now : Nat),
        btn.current_state = .FINISH →
        UpdateGenericState btn active now
          = ({ btn with state_bits := 0, current_state := .IDLE },
             [mkEvent btn .CLICK_FINISH now]))
    ∧ (∀ (btn : GenericButton) (active : Bool) (now : Nat),
        (UpdateGenericState btn active now).1.long_press_cnt = btn.long_press_cnt
        ∨ ((UpdateGenericState btn active now).1.long_press_cnt = 0
            ∧ btn.current_state = .PRESSED
            ∧ (UpdateGenericState btn active now).1.current_state = .LONG_PRESS)
        ∨ ((UpdateGenericState btn active now).1.long_press_cnt
              = (btn.long_press_cnt + 1) % U16
            ∧ btn.current_state = .LONG_PRESS
            ∧ (UpdateGenericState btn active now).2.map (fun e => e.event_type)
                = [.LONG_PRESS_HOLD]))
    ∧ (∀ (sup' : Nat) (btn : GenericButton) (now : Nat),
        (physTick sup' btn now).1.long_press_cnt = btn.long_press_cnt
        ∨ ((physTick sup' btn now).1.long_press_cnt = 0
            ∧ (sup'.testBit btn.logic_index = true
               ∨ (physTick sup' btn now).1.current_state = .LONG_PRESS))
        ∨ ((physTick sup' btn now).1.long_press_cnt = (btn.long_press_cnt + 1) % U16
            ∧ btn.current_state = .LONG_PRESS)) :=
  c10_stale_long_press_count 0 1 0 0 0 true false false ⟨50, 1000, 500, 300⟩ 10 1020
    [1530, 2040] 2050 2060 2400 2410 2500 2510 2520 2830 2840 (by decide) (by decide)
    (by decide) (by decide) (by decide) (by decide) (by decide) (by decide) (by decide)
    (by decide) (by decide) (by decide)

end BitsButtonXR
